import Mathlib

set_option maxHeartbeats 2000000
set_option linter.unnecessarySeqFocus false

/-!
Verification development for the Ratatouille.lv2 plugin core
(src/Ratatouille/Ratatouille.cpp).

The development shallowly embeds the concurrency / state-machine core of the
plugin: the fields of the `Xratatouille` class that are touched by the worker
routine `do_work_mono`, the dispatcher `run_dsp_`, the patch-message decoder
`read_set_file`, the state-restore hook `restore_state`, and the one-pole
crossfade smoother.  External collaborators (the two neural-model loaders and
the two convolution engines) are abstracted by a deterministic outcome oracle
`Env`: for a given file path (and, for the convolver, sample rate and buffer
size) the oracle tells whether the corresponding load / start call succeeds.
The calls issued to those collaborators are recorded in an explicit trace so
that ordering and "which slots were attempted" properties can be stated.
-/

/-- Deterministic outcome oracle for the external blocking calls made by
`do_work_mono`: `rtm.load_nam_afile()/load_nam_bfile()` (NAM model loads),
`rtnm.load_json_afile()/load_json_bfile()` (RtNeural model loads) and
`conv.start()`/`conv1.start()` (convolution engine starts, which also see the
sample rate and buffer size configured just before). -/
structure Env where
  namLoadOkA : String → Bool
  namLoadOkB : String → Bool
  rtnLoadOkA : String → Bool
  rtnLoadOkB : String → Bool
  convStartOk : String → Nat → Nat → Bool
  conv1StartOk : String → Nat → Nat → Bool

/-- The observable state of the plugin: the six stored file paths, the atomic
flags and operation code, the four model-slot activation flags, the runnable
status of the two convolution engines, the two crossfade coefficient
histories `fRec2`/`fRec1`, and the remembered buffer size / sample rate.
Field names follow the C++ members of `Xratatouille`. -/
structure PluginState where
  model_file : String
  model_file1 : String
  rtmodel_file : String
  rtmodel_file1 : String
  ir_file : String
  ir_file1 : String
  _execute : Bool
  _notify_ui : Bool
  _restore : Bool
  _ab : Int
  _namA : Bool
  _namB : Bool
  _rtnA : Bool
  _rtnB : Bool
  convRunnable : Bool
  conv1Runnable : Bool
  fRec2 : ℚ × ℚ
  fRec1 : ℚ × ℚ
  bufsize : Nat
  s_rate : Nat
deriving DecidableEq, Repr

/-- One call to an external collaborator, as issued by `do_work_mono`.
`loadNamA p` records a `rtm.load_nam_afile()` attempt with `rtm.load_afile=p`,
`unloadRtnA` records `rtnm.unload_json_afile()`, and the `conv*` constructors
record the convolution-engine lifecycle calls on channel `ch` (0 for `conv`,
1 for `conv1`). -/
inductive WOp where
  | loadNamA (path : String)
  | loadNamB (path : String)
  | loadRtnA (path : String)
  | loadRtnB (path : String)
  | unloadNamA
  | unloadNamB
  | unloadRtnA
  | unloadRtnB
  | convSetNotRunnable (ch : Nat)
  | convStop (ch : Nat)
  | convCleanup (ch : Nat)
  | convSetSamplerate (ch : Nat)
  | convSetBuffersize (ch : Nat)
  | convConfigure (ch : Nat) (path : String)
  | convCheckstate (ch : Nat)
  | convStart (ch : Nat)
deriving DecidableEq, Repr

/-- Lines 422-432 of `do_work_mono` (code 1), also reused verbatim by the
batch branch: set `rtm.load_afile = model_file`, attempt the NAM "A" load,
on failure reset the path and clear `_namA`, on success set `_namA`; then
unload the RtNeural "A" slot and clear its path and flag. -/
def doLoadNamA (env : Env) (s : PluginState) : PluginState × List WOp :=
  let s1 := if env.namLoadOkA s.model_file = false then
      { s with model_file := "None", _namA := false }
    else
      { s with _namA := true }
  ({ s1 with rtmodel_file := "None", _rtnA := false },
   [WOp.loadNamA s.model_file, WOp.unloadRtnA])

/-- Lines 433-443 of `do_work_mono` (code 2): NAM "B" load, RtNeural "B"
unload. -/
def doLoadNamB (env : Env) (s : PluginState) : PluginState × List WOp :=
  let s1 := if env.namLoadOkB s.model_file1 = false then
      { s with model_file1 := "None", _namB := false }
    else
      { s with _namB := true }
  ({ s1 with rtmodel_file1 := "None", _rtnB := false },
   [WOp.loadNamB s.model_file1, WOp.unloadRtnB])

/-- Lines 465-475 of `do_work_mono` (code 4): RtNeural "A" load, NAM "A"
unload. -/
def doLoadRtnA (env : Env) (s : PluginState) : PluginState × List WOp :=
  let s1 := if env.rtnLoadOkA s.rtmodel_file = false then
      { s with rtmodel_file := "None", _rtnA := false }
    else
      { s with _rtnA := true }
  ({ s1 with model_file := "None", _namA := false },
   [WOp.loadRtnA s.rtmodel_file, WOp.unloadNamA])

/-- Lines 476-486 of `do_work_mono` (code 5): RtNeural "B" load, NAM "B"
unload. -/
def doLoadRtnB (env : Env) (s : PluginState) : PluginState × List WOp :=
  let s1 := if env.rtnLoadOkB s.rtmodel_file1 = false then
      { s with rtmodel_file1 := "None", _rtnB := false }
    else
      { s with _rtnB := true }
  ({ s1 with model_file1 := "None", _namB := false },
   [WOp.loadRtnB s.rtmodel_file1, WOp.unloadNamB])

/-- Lines 444-464 of `do_work_mono` (code 3): load both NAM slots, then
unload both RtNeural slots. -/
def doCode3 (env : Env) (s : PluginState) : PluginState × List WOp :=
  let s1 := if env.namLoadOkA s.model_file = false then
      { s with model_file := "None", _namA := false }
    else
      { s with _namA := true }
  let s2 := if env.namLoadOkB s1.model_file1 = false then
      { s1 with model_file1 := "None", _namB := false }
    else
      { s1 with _namB := true }
  ({ s2 with rtmodel_file := "None", rtmodel_file1 := "None",
             _rtnA := false, _rtnB := false },
   [WOp.loadNamA s.model_file, WOp.loadNamB s1.model_file1,
    WOp.unloadRtnA, WOp.unloadRtnB])

/-- Lines 487-507 of `do_work_mono` (code 6): load both RtNeural slots, then
unload both NAM slots. -/
def doCode6 (env : Env) (s : PluginState) : PluginState × List WOp :=
  let s1 := if env.rtnLoadOkA s.rtmodel_file = false then
      { s with rtmodel_file := "None", _rtnA := false }
    else
      { s with _rtnA := true }
  let s2 := if env.rtnLoadOkB s1.rtmodel_file1 = false then
      { s1 with rtmodel_file1 := "None", _rtnB := false }
    else
      { s1 with _rtnB := true }
  ({ s2 with model_file := "None", model_file1 := "None",
             _namA := false, _namB := false },
   [WOp.loadRtnA s.rtmodel_file, WOp.loadRtnB s1.rtmodel_file1,
    WOp.unloadNamA, WOp.unloadNamB])

/-- The convolution-engine call sequence issued by the reconfiguration
blocks (lines 601-616, 617-632, and the corresponding batch blocks): the
conditional teardown (`set_not_runnable`, `stop_process`) when the engine is
currently runnable, then `cleanup`, `set_samplerate`, `set_buffersize`,
`configure`, the `while (!checkstate());` busy-wait, and `start`. -/
def convOps (ch : Nat) (runnable : Bool) (path : String) : List WOp :=
  (if runnable then [WOp.convSetNotRunnable ch, WOp.convStop ch] else []) ++
  [WOp.convCleanup ch, WOp.convSetSamplerate ch, WOp.convSetBuffersize ch,
   WOp.convConfigure ch path, WOp.convCheckstate ch, WOp.convStart ch]

/-- Reconfigure one convolution channel: on `start` failure the stored path
reverts to the sentinel and the engine is not runnable; on success the engine
is runnable and the path is kept.  Returns (runnable, path, trace). -/
def convReconfig (startOk : String → Nat → Nat → Bool) (ch : Nat)
    (runnable : Bool) (path : String) (sr bs : Nat) :
    Bool × String × List WOp :=
  if startOk path sr bs = false then (false, "None", convOps ch runnable path)
  else (true, path, convOps ch runnable path)

/-- Lines 601-616 of `do_work_mono` (code 7): reconfigure `conv` for
`ir_file`. -/
def doCode7 (env : Env) (s : PluginState) : PluginState × List WOp :=
  let r := convReconfig env.convStartOk 0 s.convRunnable s.ir_file s.s_rate s.bufsize
  ({ s with convRunnable := r.1, ir_file := r.2.1 }, r.2.2)

/-- Lines 617-632 of `do_work_mono` (code 8): reconfigure `conv1` for
`ir_file1`. -/
def doCode8 (env : Env) (s : PluginState) : PluginState × List WOp :=
  let r := convReconfig env.conv1StartOk 1 s.conv1Runnable s.ir_file1 s.s_rate s.bufsize
  ({ s with conv1Runnable := r.1, ir_file1 := r.2.1 }, r.2.2)

/-- Lines 509-520 of the batch branch: NAM "A" reload, guarded by the
stored path not being the sentinel. -/
def batchNamA (env : Env) (s : PluginState) : PluginState × List WOp :=
  if s.model_file ≠ "None" then doLoadNamA env s else (s, [])

/-- Lines 521-532 of the batch branch: guarded NAM "B" reload. -/
def batchNamB (env : Env) (s : PluginState) : PluginState × List WOp :=
  if s.model_file1 ≠ "None" then doLoadNamB env s else (s, [])

/-- Lines 533-544 of the batch branch: guarded RtNeural "A" reload. -/
def batchRtnA (env : Env) (s : PluginState) : PluginState × List WOp :=
  if s.rtmodel_file ≠ "None" then doLoadRtnA env s else (s, [])

/-- Lines 545-556 of the batch branch: guarded RtNeural "B" reload. -/
def batchRtnB (env : Env) (s : PluginState) : PluginState × List WOp :=
  if s.rtmodel_file1 ≠ "None" then doLoadRtnB env s else (s, [])

/-- Lines 557-578 of the batch branch: reconfigure `conv` when `ir_file` is
non-sentinel, else stop it if it is still runnable. -/
def batchConv0 (env : Env) (s : PluginState) : PluginState × List WOp :=
  if s.ir_file ≠ "None" then
    let r := convReconfig env.convStartOk 0 s.convRunnable s.ir_file s.s_rate s.bufsize
    ({ s with convRunnable := r.1, ir_file := r.2.1 }, r.2.2)
  else if s.convRunnable then
    ({ s with convRunnable := false }, [WOp.convSetNotRunnable 0, WOp.convStop 0])
  else (s, [])

/-- Lines 579-600 of the batch branch: likewise for `conv1`/`ir_file1`. -/
def batchConv1 (env : Env) (s : PluginState) : PluginState × List WOp :=
  if s.ir_file1 ≠ "None" then
    let r := convReconfig env.conv1StartOk 1 s.conv1Runnable s.ir_file1 s.s_rate s.bufsize
    ({ s with conv1Runnable := r.1, ir_file1 := r.2.1 }, r.2.2)
  else if s.conv1Runnable then
    ({ s with conv1Runnable := false }, [WOp.convSetNotRunnable 1, WOp.convStop 1])
  else (s, [])

/-- Lines 508-600 of `do_work_mono` (the `_ab > 10` batch branch): each of
the four model slots is (re)loaded only if its stored path is not the
sentinel (each guard re-reading the path as left by the preceding blocks),
then each convolution channel is reconfigured if its stored path is not the
sentinel, and is stopped if its path is the sentinel while the engine is
still runnable. -/
def doBatch (env : Env) (s : PluginState) : PluginState × List WOp :=
  let p1 := batchNamA env s
  let p2 := batchNamB env p1.1
  let p3 := batchRtnA env p2.1
  let p4 := batchRtnB env p3.1
  let p5 := batchConv0 env p4.1
  let p6 := batchConv1 env p5.1
  (p6.1, p1.2 ++ p2.2 ++ p3.2 ++ p4.2 ++ p5.2 ++ p6.2)

/-- `Xratatouille::do_work_mono` (lines 420-636), with the issued external
calls gathered into a trace.  The branches are dispatched on `_ab` in the
order of the source (1, 2, 3, 4, 5, 6, then `> 10`, then 7, then 8), and the
routine unconditionally ends with `_execute := false`, `_notify_ui := true`. -/
def do_work_monoT (env : Env) (s : PluginState) : PluginState × List WOp :=
  let p :=
    if s._ab = 1 then doLoadNamA env s
    else if s._ab = 2 then doLoadNamB env s
    else if s._ab = 3 then doCode3 env s
    else if s._ab = 4 then doLoadRtnA env s
    else if s._ab = 5 then doLoadRtnB env s
    else if s._ab = 6 then doCode6 env s
    else if s._ab > 10 then doBatch env s
    else if s._ab = 7 then doCode7 env s
    else if s._ab = 8 then doCode8 env s
    else (s, [])
  ({ p.1 with _execute := false, _notify_ui := true }, p.2)

/-- The state transformer of `do_work_mono` (trace dropped). -/
def do_work_mono (env : Env) (s : PluginState) : PluginState :=
  (do_work_monoT env s).1

/-! ### URIDs

`map_uris` maps the seven plugin URIs and the standard atom/patch URIs to
distinct URID integers; the embedding fixes one such injective assignment. -/

def xlv2_model_file : Nat := 1
def xlv2_model_file1 : Nat := 2
def xlv2_rtmodel_file : Nat := 3
def xlv2_rtmodel_file1 : Nat := 4
def xlv2_ir_file : Nat := 5
def xlv2_ir_file1 : Nat := 6
def atom_URID : Nat := 7
def atom_Path : Nat := 8
def patch_Get : Nat := 9
def patch_Set : Nat := 10

/-- An inbound `LV2_Atom_Object`, reduced to the parts `read_set_file` and
`run_dsp_` inspect: the object type URID, the optional `patch_property`
member (its atom type and, when it is a URID atom, its body) and the
optional `patch_value` member (its atom type and its payload string). -/
structure AtomObject where
  otype : Nat
  property : Option (Nat × Nat)
  value : Option (Nat × String)
deriving DecidableEq, Repr

/-- The property-URID → operation-code table of `read_set_file`
(lines 664-675). -/
def targetCode (b : Nat) : Option Int :=
  if b = xlv2_model_file then some 1
  else if b = xlv2_model_file1 then some 2
  else if b = xlv2_rtmodel_file then some 4
  else if b = xlv2_rtmodel_file1 then some 5
  else if b = xlv2_ir_file then some 7
  else if b = xlv2_ir_file1 then some 8
  else none

/-- The `patch_value` lookup of `read_set_file` (lines 679-685): the value
atom, if present and of type `atom_Path`, yields the file path. -/
def readValue (obj : AtomObject) : Option String :=
  match obj.value with
  | some (t, p) => if t = atom_Path then some p else none
  | none => none

/-- `Xratatouille::read_set_file` (lines 655-686).  Returns the decoded file
path (or `none` where the C++ returns `NULL`) together with the state, whose
`_ab` field is overwritten when the property is a known URID.  An unknown
URID property returns `NULL` immediately; a missing or non-URID property
falls through to the value check without touching `_ab`. -/
def read_set_file (s : PluginState) (obj : AtomObject) :
    Option String × PluginState :=
  if obj.otype ≠ patch_Set then (none, s)
  else
    match obj.property with
    | some (t, b) =>
      if t = atom_URID then
        match targetCode b with
        | some c => (readValue obj, { s with _ab := c })
        | none => (none, s)
      else (readValue obj, s)
    | none => (readValue obj, s)

/-- The response to an inbound `patch_Get` (lines 699-711): one
`patch_Set` notification per currently non-sentinel slot/channel path. -/
def getMsgs (s : PluginState) : List (Nat × String) :=
  (if s.model_file ≠ "None" then [(xlv2_model_file, s.model_file)] else []) ++
  (if s.model_file1 ≠ "None" then [(xlv2_model_file1, s.model_file1)] else []) ++
  (if s.rtmodel_file ≠ "None" then [(xlv2_rtmodel_file, s.rtmodel_file)] else []) ++
  (if s.rtmodel_file1 ≠ "None" then [(xlv2_rtmodel_file1, s.rtmodel_file1)] else []) ++
  (if s.ir_file ≠ "None" then [(xlv2_ir_file, s.ir_file)] else []) ++
  (if s.ir_file1 ≠ "None" then [(xlv2_ir_file1, s.ir_file1)] else [])

/-- One "removed file" notification: emitted only when the path is the
sentinel. -/
def unloadedMsg (u : Nat) (p : String) : List (Nat × String) :=
  if p = "None" then [(u, p)] else []

/-- One "loaded file" notification: emitted only when the path is not the
sentinel. -/
def loadedMsg (u : Nat) (p : String) : List (Nat × String) :=
  if p = "None" then [] else [(u, p)]

/-- The notification block of `run_dsp_` (lines 812-840): sentinel
notifications for unloaded model slots, then notifications for loaded model
slots, then both impulse-channel paths unconditionally. -/
def notifyMsgs (s : PluginState) : List (Nat × String) :=
  unloadedMsg xlv2_model_file s.model_file ++
  unloadedMsg xlv2_model_file1 s.model_file1 ++
  unloadedMsg xlv2_rtmodel_file s.rtmodel_file ++
  unloadedMsg xlv2_rtmodel_file1 s.rtmodel_file1 ++
  loadedMsg xlv2_model_file s.model_file ++
  loadedMsg xlv2_model_file1 s.model_file1 ++
  loadedMsg xlv2_rtmodel_file s.rtmodel_file ++
  loadedMsg xlv2_rtmodel_file1 s.rtmodel_file1 ++
  [(xlv2_ir_file, s.ir_file), (xlv2_ir_file1, s.ir_file1)]

/-- Storing the decoded path into the slot selected by the current operation
code (lines 715-726). -/
def storePath (s : PluginState) (p : String) : PluginState :=
  if s._ab = 1 then { s with model_file := p }
  else if s._ab = 2 then { s with model_file1 := p }
  else if s._ab = 4 then { s with rtmodel_file := p }
  else if s._ab = 5 then { s with rtmodel_file1 := p }
  else if s._ab = 7 then { s with ir_file := p }
  else if s._ab = 8 then { s with ir_file1 := p }
  else s

/-- Processing of one control event (lines 696-736): a `patch_Get` emits the
current non-sentinel paths; a `patch_Set` is decoded by `read_set_file` and,
when a path was decoded, the path is stored and - only if `_execute` is
still false - the request is armed (`bufsize := n_samples`,
`_execute := true`) and the worker condition variable is notified.  Returns
(state, emitted messages, worker woken). -/
def processEvent (n : Nat) (s : PluginState) (obj : AtomObject) :
    PluginState × List (Nat × String) × Bool :=
  if obj.otype = patch_Get then (s, getMsgs s, false)
  else if obj.otype = patch_Set then
    match read_set_file s obj with
    | (some p, s1) =>
      let s2 := storePath s1 p
      if s2._execute = false then
        ({ s2 with _execute := true, bufsize := n }, [], true)
      else (s2, [], false)
    | (none, s1) => (s1, [], false)
  else (s, [], false)

/-- Left-to-right processing of the control event sequence, accumulating the
forged messages and whether the worker was woken. -/
def processEvents (n : Nat) :
    List AtomObject → PluginState × List (Nat × String) × Bool →
    PluginState × List (Nat × String) × Bool
  | [], acc => acc
  | e :: rest, acc =>
    let r := processEvent n acc.1 e
    processEvents n rest (r.1, acc.2.1 ++ r.2.1, acc.2.2 || r.2.2)

/-- The constant `0.0010000000000000009` from lines 755-756 (the multiplier
applied to the `blend`/`mix` control values), as an exact rational. -/
def kConst : ℚ := 10000000000000009 / 10 ^ 19

/-- One iteration of the one-pole smoother:
`fRec[0] = fSlow + 0.999 * fRec[1]` (lines 771 and 799). -/
def smoothStep (t h : ℚ) : ℚ := t + (999 / 1000) * h

/-- The effect of `n` iterations of the per-sample loop on a coefficient
history pair: each iteration computes `h0 = smoothStep t fRec[1]` and then
stores `fRec[1] = fRec[0] = h0`. -/
def iterSmooth (t : ℚ) : Nat → ℚ × ℚ → ℚ × ℚ
  | 0, p => p
  | n + 1, p => iterSmooth t n (smoothStep t p.2, smoothStep t p.2)

/-- The crossfade coefficient sequence for a constant per-sample target `t`,
starting from history value `h0`: `fadeSeq t h0 (n+1) = smoothStep t
(fadeSeq t h0 n)`. -/
def fadeSeq (t h0 : ℚ) : Nat → ℚ
  | 0 => h0
  | n + 1 => smoothStep t (fadeSeq t h0 n)

/-- Result of one `run_dsp_` call, audio samples excluded: the final state,
the messages written to the notify port, whether the worker condition
variable was signalled, and whether `conv.compute` / `conv1.compute` were
invoked (lines 791-794: they run only when `_execute` is false and the
engine is runnable). -/
structure CoreResult where
  state : PluginState
  msgs : List (Nat × String)
  wake : Bool
  convComputed : Bool
  conv1Computed : Bool
deriving DecidableEq, Repr

/-- `Xratatouille::run_dsp_` (lines 688-846), audio-sample arithmetic
abstracted away (see `run_dsp_out`): the `n_samples < 1` early return, the
control-event loop, the pending-restore arming (lines 738-744), the
crossfade history updates (the `fRec2` loop runs when one family's "A" slot
and the other family's "B" slot are simultaneously active, the `fRec1` loop
when both convolution engines are runnable and no work is in flight), and
the notification block (lines 810-842) which clears `_notify_ui` and resets
`_ab` to idle. -/
def run_dsp_core (blend mix : ℚ) (n : Nat) (evs : List AtomObject)
    (s : PluginState) : CoreResult :=
  if n < 1 then ⟨s, [], false, false, false⟩
  else
    let a := processEvents n evs (s, [], false)
    let s1 := a.1
    let r2 := if s1._execute = false ∧ s1._restore = true then
        ({ s1 with _execute := true, bufsize := n, _restore := false }, true)
      else (s1, a.2.2)
    let s2 := r2.1
    let fSlow2 := kConst * blend
    let fSlow1 := kConst * mix
    let s3 := if (s2._namA = true ∧ s2._rtnB = true) ∨
                 (s2._namB = true ∧ s2._rtnA = true) then
        { s2 with fRec2 := iterSmooth fSlow2 n s2.fRec2 }
      else s2
    let cc := !s3._execute && s3.convRunnable
    let cc1 := !s3._execute && s3.conv1Runnable
    let s4 := if cc = true ∧ cc1 = true then
        { s3 with fRec1 := iterSmooth fSlow1 n s3.fRec1 }
      else s3
    let r5 := if s4._notify_ui = true then
        ({ s4 with _notify_ui := false, _ab := 0 }, notifyMsgs s4)
      else (s4, [])
    ⟨r5.1, a.2.1 ++ r5.2, r2.2, cc, cc1⟩

/-- The audio output of `run_dsp_` (lines 746-807), abstracted: the DSP
math of the neural models, the dc blocker and the convolution engines is an
external collaborator, so the produced buffer is an uninterpreted function
of the observable inputs - except that for `n_samples < 1` the routine
returns before touching the output buffer. -/
def run_dsp_out {β : Type} (afn : PluginState → ℚ → ℚ → Nat → β → β → β)
    (blend mix : ℚ) (inBuf outBuf : β) (n : Nat) (_evs : List AtomObject)
    (s : PluginState) : β :=
  if n < 1 then outBuf else afn s blend mix n inBuf outBuf

/-- The six persisted values handed back by the host's retrieve callback in
`restore_state` (`none` where the C++ `retrieve` returns `NULL`). -/
structure RetrievedState where
  model_file : Option String
  model_file1 : Option String
  rtmodel_file : Option String
  rtmodel_file1 : Option String
  ir_file : Option String
  ir_file1 : Option String
deriving DecidableEq, Repr

/-- `Xratatouille::restore_state` (lines 888-954): each retrieved value is
stored into its slot path; a non-empty, non-sentinel value adds that key's
increment to `_ab` (`fetch_add`: 1 for the NAM "A" key, 2 for the NAM "B"
key, 12 for each of the RtNeural and impulse keys); finally `_restore` is
set. -/
def restore_state (r : RetrievedState) (s : PluginState) : PluginState :=
  let s1 := match r.model_file with
    | some p => { s with
        model_file := p
        _ab := if ¬(p = "") ∧ p ≠ "None" then s._ab + 1 else s._ab }
    | none => s
  let s2 := match r.model_file1 with
    | some p => { s1 with
        model_file1 := p
        _ab := if ¬(p = "") ∧ p ≠ "None" then s1._ab + 2 else s1._ab }
    | none => s1
  let s3 := match r.rtmodel_file with
    | some p => { s2 with
        rtmodel_file := p
        _ab := if ¬(p = "") ∧ p ≠ "None" then s2._ab + 12 else s2._ab }
    | none => s2
  let s4 := match r.rtmodel_file1 with
    | some p => { s3 with
        rtmodel_file1 := p
        _ab := if ¬(p = "") ∧ p ≠ "None" then s3._ab + 12 else s3._ab }
    | none => s3
  let s5 := match r.ir_file with
    | some p => { s4 with
        ir_file := p
        _ab := if ¬(p = "") ∧ p ≠ "None" then s4._ab + 12 else s4._ab }
    | none => s4
  let s6 := match r.ir_file1 with
    | some p => { s5 with
        ir_file1 := p
        _ab := if ¬(p = "") ∧ p ≠ "None" then s5._ab + 12 else s5._ab }
    | none => s5
  { s6 with _restore := true }

/-- `Xratatouille::init_dsp_` (lines 346-373): sentinel paths, all flags
cleared, idle operation code, zeroed crossfade histories.  The convolution
engines have not been started, so neither is runnable. -/
def init_state (rate : Nat) : PluginState :=
  { model_file := "None", model_file1 := "None", rtmodel_file := "None",
    rtmodel_file1 := "None", ir_file := "None", ir_file1 := "None",
    _execute := false, _notify_ui := false, _restore := false, _ab := 0,
    _namA := false, _namB := false, _rtnA := false, _rtnB := false,
    convRunnable := false, conv1Runnable := false,
    fRec2 := (0, 0), fRec1 := (0, 0), bufsize := 0, s_rate := rate }

/-- `Xratatouille::clean_up` (lines 408-413): reset both crossfade
histories. -/
def clean_up (s : PluginState) : PluginState :=
  { s with fRec2 := (0, 0), fRec1 := (0, 0) }

/-- One transition of the plugin state: a worker execution of
`do_work_mono`, a dispatcher buffer cycle `run_dsp_`, a host state restore,
or `clean_up`. -/
inductive Step (env : Env) : PluginState → PluginState → Prop
  | work (s : PluginState) : Step env s (do_work_mono env s)
  | dsp (s : PluginState) (blend mix : ℚ) (n : Nat) (evs : List AtomObject) :
      Step env s (run_dsp_core blend mix n evs s).state
  | restore (s : PluginState) (r : RetrievedState) :
      Step env s (restore_state r s)
  | cleanup (s : PluginState) : Step env s (clean_up s)

/-- States reachable from the freshly initialised plugin. -/
def Reachable (env : Env) (rate : Nat) (s : PluginState) : Prop :=
  Relation.ReflTransGen (Step env) (init_state rate) s

/-- The six load targets of the §3 data model: the four model slots and the
two impulse channels. -/
inductive SlotId where
  | namA | namB | rtnA | rtnB | conv0 | conv1
deriving DecidableEq, Repr

/-- The slot or channel an external call acts on. -/
def WOp.slot : WOp → SlotId
  | .loadNamA _ => .namA
  | .loadNamB _ => .namB
  | .loadRtnA _ => .rtnA
  | .loadRtnB _ => .rtnB
  | .unloadNamA => .namA
  | .unloadNamB => .namB
  | .unloadRtnA => .rtnA
  | .unloadRtnB => .rtnB
  | .convSetNotRunnable ch => if ch = 0 then .conv0 else .conv1
  | .convStop ch => if ch = 0 then .conv0 else .conv1
  | .convCleanup ch => if ch = 0 then .conv0 else .conv1
  | .convSetSamplerate ch => if ch = 0 then .conv0 else .conv1
  | .convSetBuffersize ch => if ch = 0 then .conv0 else .conv1
  | .convConfigure ch _ => if ch = 0 then .conv0 else .conv1
  | .convCheckstate ch => if ch = 0 then .conv0 else .conv1
  | .convStart ch => if ch = 0 then .conv0 else .conv1

/-- A slot/channel was attempted (a load or unload call was issued on it)
during a given trace. -/
def attempted (tr : List WOp) (sl : SlotId) : Bool :=
  tr.any (fun op => op.slot = sl)

/-- Modelled from the spec: the slots/channels named by the §3 operation
code table.  Codes 1-6 name the loaded slot(s) of one family together with
the same-lettered slot(s) of the other family, which the §3 invariant says
are unconditionally unloaded; codes 7/8 name one impulse channel; a batch
code (> 10) reconciles all slots and channels against the currently stored
paths, so a letter is named when either family's stored path for it is
non-sentinel, and a channel when its stored path is non-sentinel or the
channel is still running and must be reconciled to the unloaded state. -/
def specAttempts (code : Int) (s : PluginState) (sl : SlotId) : Bool :=
  if code = 1 then decide (sl = SlotId.namA ∨ sl = SlotId.rtnA)
  else if code = 2 then decide (sl = SlotId.namB ∨ sl = SlotId.rtnB)
  else if code = 3 then decide (sl ≠ SlotId.conv0 ∧ sl ≠ SlotId.conv1)
  else if code = 4 then decide (sl = SlotId.namA ∨ sl = SlotId.rtnA)
  else if code = 5 then decide (sl = SlotId.namB ∨ sl = SlotId.rtnB)
  else if code = 6 then decide (sl ≠ SlotId.conv0 ∧ sl ≠ SlotId.conv1)
  else if code = 7 then decide (sl = SlotId.conv0)
  else if code = 8 then decide (sl = SlotId.conv1)
  else if code > 10 then
    match sl with
    | .namA => decide (s.model_file ≠ "None" ∨ s.rtmodel_file ≠ "None")
    | .rtnA => decide (s.model_file ≠ "None" ∨ s.rtmodel_file ≠ "None")
    | .namB => decide (s.model_file1 ≠ "None" ∨ s.rtmodel_file1 ≠ "None")
    | .rtnB => decide (s.model_file1 ≠ "None" ∨ s.rtmodel_file1 ≠ "None")
    | .conv0 => s.ir_file ≠ "None" ∨ s.convRunnable
    | .conv1 => s.ir_file1 ≠ "None" ∨ s.conv1Runnable
  else false

/-! ### Helper lemmas about the one-pole smoother -/

/-- Closed form of the smoother sequence: the distance to the fixed point
`1000 * t` decays by a factor `999/1000` per sample. -/
theorem fadeSeq_closed_form (t h0 : ℚ) :
    ∀ n, fadeSeq t h0 n - 1000 * t = (999 / 1000) ^ n * (h0 - 1000 * t) := by
  intro n
  induction n with
  | zero => simp [fadeSeq]
  | succ n ih =>
    have hn : fadeSeq t h0 n = 1000 * t + (999 / 1000) ^ n * (h0 - 1000 * t) := by
      linarith [ih]
    rw [fadeSeq, smoothStep, hn, pow_succ]
    ring

/-- Shifting the start of the smoother sequence by one step. -/
theorem fadeSeq_shift (t h0 : ℚ) :
    ∀ n, fadeSeq t (smoothStep t h0) n = fadeSeq t h0 (n + 1) := by
  intro n
  induction n with
  | zero => rfl
  | succ n ih => rw [fadeSeq, ih]; rfl

/-- After at least one sample, the per-buffer history update agrees with the
per-sample sequence started from the stored `fRec[1]` value. -/
theorem iterSmooth_eq_fadeSeq (t : ℚ) :
    ∀ n p, 1 ≤ n → iterSmooth t n p = (fadeSeq t p.2 n, fadeSeq t p.2 n) := by
  intro n
  induction n with
  | zero => intro p h; omega
  | succ n ih =>
    intro p _
    rcases Nat.eq_zero_or_pos n with h0 | h0
    · subst h0
      simp [iterSmooth, fadeSeq]
    · rw [iterSmooth, ih _ h0]
      simp [fadeSeq_shift]


/-- A retrieved persisted value that triggers a `fetch_add` in
`restore_state`: present, non-empty and not the sentinel. -/
def keyPresent : Option String → Prop
  | some p => ¬(p = "") ∧ p ≠ "None"
  | none => False

instance (v : Option String) : Decidable (keyPresent v) := by
  unfold keyPresent; cases v <;> infer_instance

/-- Example retrieved state: only the ProfileModel "A" key holds a
non-sentinel value. -/
def rOnlyNamA : RetrievedState :=
  ⟨some "/a.nam", none, none, none, none, none⟩

/-- Example retrieved state: only the RecurrentModel "B" key holds a
non-sentinel value. -/
def rOnlyRtnB : RetrievedState :=
  ⟨none, none, none, some "/b.json", none, none⟩

/-- Claim C4, counterexample to the claim as stated: with the blend control
at 500 (inside the 0-1000 range the spec gives for the control) and a zero
starting history, the coefficient sequence equals the claimed target
`k * 500` after one sample, then moves past it, and exceeds 1 after three
samples - so it is not convergent toward `target` and not bounded in
[0, 1]. -/
theorem C4_counterexample :
    fadeSeq (kConst * 500) 0 1 = kConst * 500 ∧
    kConst * 500 < fadeSeq (kConst * 500) 0 2 ∧
    1 < fadeSeq (kConst * 500) 0 3 := by
  refine ⟨?_, ?_, ?_⟩ <;> norm_num [fadeSeq, smoothStep, kConst]

/-- Claim C4 (amended): for a constant control value the crossfade
coefficient sequence `h[0] = target + 0.999 * h[1]` converges monotonically
to the fixed point `1000 * target` (not to `target`): the distance to the
fixed point decays geometrically, the sequence is monotone from any starting
history, and it stays within [0, 1] provided the starting history and the
fixed point `1000 * target` lie in [0, 1].  The last conjunct ties the
per-sample sequence to the per-buffer history update of `run_dsp_`. -/
theorem C4_crossfade_convergence (t h0 : ℚ) :
    (∀ n, fadeSeq t h0 n - 1000 * t = (999 / 1000) ^ n * (h0 - 1000 * t)) ∧
    (h0 ≤ 1000 * t → Monotone (fadeSeq t h0)) ∧
    (1000 * t ≤ h0 → Antitone (fadeSeq t h0)) ∧
    (0 ≤ h0 → h0 ≤ 1 → 0 ≤ 1000 * t → 1000 * t ≤ 1 →
      ∀ n, 0 ≤ fadeSeq t h0 n ∧ fadeSeq t h0 n ≤ 1) ∧
    (∀ n p, 1 ≤ n → iterSmooth t n p = (fadeSeq t p.2 n, fadeSeq t p.2 n)) := by
  refine ⟨fadeSeq_closed_form t h0, ?_, ?_, ?_, iterSmooth_eq_fadeSeq t⟩
  · intro h
    apply monotone_nat_of_le_succ
    intro n
    have c1 := fadeSeq_closed_form t h0 n
    have c2 := fadeSeq_closed_form t h0 (n + 1)
    rw [pow_succ] at c2
    have hq : (0 : ℚ) ≤ (999 / 1000) ^ n := by positivity
    have key : 0 ≤ (999 / 1000) ^ n * (1000 * t - h0) :=
      mul_nonneg hq (by linarith)
    nlinarith [c1, c2, key]
  · intro h
    apply antitone_nat_of_succ_le
    intro n
    have c1 := fadeSeq_closed_form t h0 n
    have c2 := fadeSeq_closed_form t h0 (n + 1)
    rw [pow_succ] at c2
    have hq : (0 : ℚ) ≤ (999 / 1000) ^ n := by positivity
    have key : 0 ≤ (999 / 1000) ^ n * (h0 - 1000 * t) :=
      mul_nonneg hq (by linarith)
    nlinarith [c1, c2, key]
  · intro hh0 hh1 hl0 hl1 n
    have c := fadeSeq_closed_form t h0 n
    have hq0 : (0 : ℚ) ≤ (999 / 1000) ^ n := by positivity
    have hq1 : (999 / 1000 : ℚ) ^ n ≤ 1 :=
      pow_le_one₀ (by norm_num) (by norm_num)
    have k1 : 0 ≤ (999 / 1000) ^ n * (1 - h0) :=
      mul_nonneg hq0 (by linarith)
    have k2 : 0 ≤ (1 - (999 / 1000) ^ n) * (1 - 1000 * t) :=
      mul_nonneg (by linarith) (by linarith)
    have k3 : 0 ≤ (999 / 1000) ^ n * h0 := mul_nonneg hq0 hh0
    have k4 : 0 ≤ (1 - (999 / 1000) ^ n) * (1000 * t) :=
      mul_nonneg (by linarith) hl0
    constructor <;> nlinarith [c, k1, k2, k3, k4]

/-- Witness for `C4_crossfade_convergence` at `t = 1/2000` with an
ascending history (`h0 = 0`) and a descending one (`h0 = 1`). -/
theorem C4_crossfade_convergence_witness :
    Monotone (fadeSeq (1 / 2000) 0) ∧
    Antitone (fadeSeq (1 / 2000) 1) ∧
    (0 ≤ fadeSeq (1 / 2000) 0 5 ∧ fadeSeq (1 / 2000) 0 5 ≤ 1) ∧
    (0 ≤ fadeSeq (1 / 2000) 1 5 ∧ fadeSeq (1 / 2000) 1 5 ≤ 1) ∧
    iterSmooth (1 / 2000) 3 (0, 0) =
      (fadeSeq (1 / 2000) 0 3, fadeSeq (1 / 2000) 0 3) :=
  ⟨(C4_crossfade_convergence (1 / 2000) 0).2.1 (by norm_num),
   (C4_crossfade_convergence (1 / 2000) 1).2.2.1 (by norm_num),
   (C4_crossfade_convergence (1 / 2000) 0).2.2.2.1 (by norm_num) (by norm_num)
     (by norm_num) (by norm_num) 5,
   (C4_crossfade_convergence (1 / 2000) 1).2.2.2.1 (by norm_num) (by norm_num)
     (by norm_num) (by norm_num) 5,
   (C4_crossfade_convergence (1 / 2000) 0).2.2.2.2 3 (0, 0) (by norm_num)⟩

/-- Claim C5, counterexample to the claim as stated: restoring persisted
state in which only the ProfileModel "A" key holds a non-sentinel value
leaves the operation code at 1 (the single-slot code), not at a batch value
greater than 10. -/
theorem C5_counterexample :
    (restore_state rOnlyNamA (init_state 48000))._ab = 1 ∧
    ¬ (restore_state rOnlyNamA (init_state 48000))._ab > 10 := by
  constructor <;> decide

/-- Claim C5 (amended): `restore_state` stores the retrieved paths and sums
the per-key increments into the operation code (1 for ProfileModel.A, 2 for
ProfileModel.B, 12 for each of the RecurrentModel and impulse keys), sets
`_restore` unconditionally, and performs no load itself (all activation
flags, the runnable flags and `_execute` are untouched).  Starting from an
idle code, the result is a batch code (> 10) precisely when one of the four
RecurrentModel / impulse keys holds a non-sentinel value; non-sentinel
ProfileModel keys alone yield codes 1, 2 or 3. -/
theorem C5_restore_schedules (r : RetrievedState) (s : PluginState) :
    (restore_state r s)._restore = true ∧
    (restore_state r s)._namA = s._namA ∧
    (restore_state r s)._namB = s._namB ∧
    (restore_state r s)._rtnA = s._rtnA ∧
    (restore_state r s)._rtnB = s._rtnB ∧
    (restore_state r s).convRunnable = s.convRunnable ∧
    (restore_state r s).conv1Runnable = s.conv1Runnable ∧
    (restore_state r s)._execute = s._execute ∧
    (restore_state r s)._ab = s._ab
      + (if keyPresent r.model_file then 1 else 0)
      + (if keyPresent r.model_file1 then 2 else 0)
      + (if keyPresent r.rtmodel_file then 12 else 0)
      + (if keyPresent r.rtmodel_file1 then 12 else 0)
      + (if keyPresent r.ir_file then 12 else 0)
      + (if keyPresent r.ir_file1 then 12 else 0) ∧
    (s._ab = 0 →
      ((restore_state r s)._ab > 10 ↔
        (keyPresent r.rtmodel_file ∨ keyPresent r.rtmodel_file1 ∨
         keyPresent r.ir_file ∨ keyPresent r.ir_file1))) := by
  obtain ⟨mf, mf1, rf, rf1, ir0, ir1⟩ := r
  have hab : (restore_state ⟨mf, mf1, rf, rf1, ir0, ir1⟩ s)._ab = s._ab
      + (if keyPresent mf then 1 else 0)
      + (if keyPresent mf1 then 2 else 0)
      + (if keyPresent rf then 12 else 0)
      + (if keyPresent rf1 then 12 else 0)
      + (if keyPresent ir0 then 12 else 0)
      + (if keyPresent ir1 then 12 else 0) := by
    cases mf <;> cases mf1 <;> cases rf <;> cases rf1 <;> cases ir0 <;> cases ir1 <;>
      simp only [restore_state, keyPresent] <;>
      split_ifs <;> simp_all
  refine ⟨?_, ?_, ?_, ?_, ?_, ?_, ?_, ?_, hab, ?_⟩
  · cases mf <;> cases mf1 <;> cases rf <;> cases rf1 <;> cases ir0 <;> cases ir1 <;> rfl
  · cases mf <;> cases mf1 <;> cases rf <;> cases rf1 <;> cases ir0 <;> cases ir1 <;> rfl
  · cases mf <;> cases mf1 <;> cases rf <;> cases rf1 <;> cases ir0 <;> cases ir1 <;> rfl
  · cases mf <;> cases mf1 <;> cases rf <;> cases rf1 <;> cases ir0 <;> cases ir1 <;> rfl
  · cases mf <;> cases mf1 <;> cases rf <;> cases rf1 <;> cases ir0 <;> cases ir1 <;> rfl
  · cases mf <;> cases mf1 <;> cases rf <;> cases rf1 <;> cases ir0 <;> cases ir1 <;> rfl
  · cases mf <;> cases mf1 <;> cases rf <;> cases rf1 <;> cases ir0 <;> cases ir1 <;> rfl
  · cases mf <;> cases mf1 <;> cases rf <;> cases rf1 <;> cases ir0 <;> cases ir1 <;> rfl
  · intro h0
    rw [hab, h0]
    split_ifs <;> norm_num <;> tauto

/-- Witness for `C5_restore_schedules`: restoring only the RecurrentModel
"B" key from a fresh state sets the pending-restore flag and yields a batch
code. -/
theorem C5_restore_schedules_witness :
    (restore_state rOnlyRtnB (init_state 48000))._restore = true ∧
    ((restore_state rOnlyRtnB (init_state 48000))._ab > 10 ↔
      (keyPresent rOnlyRtnB.rtmodel_file ∨
       keyPresent rOnlyRtnB.rtmodel_file1 ∨
       keyPresent rOnlyRtnB.ir_file ∨
       keyPresent rOnlyRtnB.ir_file1)) :=
  ⟨(C5_restore_schedules rOnlyRtnB (init_state 48000)).1,
   (C5_restore_schedules rOnlyRtnB
      (init_state 48000)).2.2.2.2.2.2.2.2.2 (by decide)⟩

/-- Claim C9: when `run` is invoked with fewer than one sample, `run_dsp_`
returns immediately: no control message is decoded, no notification is
written, the worker is not woken, neither convolver computes, the whole
plugin state is unchanged and the output buffer is untouched. -/
theorem C9_zero_samples_noop {β : Type}
    (afn : PluginState → ℚ → ℚ → Nat → β → β → β) (blend mix : ℚ)
    (inBuf outBuf : β) (n : Nat) (evs : List AtomObject) (s : PluginState)
    (h : n < 1) :
    run_dsp_core blend mix n evs s = ⟨s, [], false, false, false⟩ ∧
    run_dsp_out afn blend mix inBuf outBuf n evs s = outBuf := by
  constructor <;> simp [run_dsp_core, run_dsp_out, h]

/-- Witness for `C9_zero_samples_noop` at `n = 0`. -/
theorem C9_zero_samples_noop_witness :
    run_dsp_core 0 0 0 [] (init_state 48000) =
      ⟨init_state 48000, [], false, false, false⟩ ∧
    run_dsp_out (fun _ _ _ _ _ o => o) 0 0 (0 : Nat) 7 0 [] (init_state 48000) = 7 :=
  C9_zero_samples_noop (fun _ _ _ _ _ o => o) 0 0 0 7 0 [] (init_state 48000)
    (by decide)

/-- Claim C10: an inbound `patch_Set` whose property selects one of the six
targets but whose value member is missing or not a Path atom still
overwrites the operation code with the target's code while `read_set_file`
returns NULL, so the buffer cycle stores no path, emits no message, issues
no request and does not wake the worker: the plugin is left with a non-idle
operation code and `_execute` still false. -/
theorem C10_set_without_path (s : PluginState) (obj : AtomObject) (b : Nat)
    (c : Int) (blend mix : ℚ) (n : Nat)
    (h1 : obj.otype = patch_Set)
    (h2 : obj.property = some (atom_URID, b))
    (h3 : targetCode b = some c)
    (h4 : readValue obj = none)
    (h5 : s._execute = false) (h6 : s._restore = false)
    (h7 : s._notify_ui = false) (h8 : 1 ≤ n) :
    (run_dsp_core blend mix n [obj] s).state._ab = c ∧
    (run_dsp_core blend mix n [obj] s).state._execute = false ∧
    (run_dsp_core blend mix n [obj] s).wake = false ∧
    (run_dsp_core blend mix n [obj] s).msgs = [] ∧
    (run_dsp_core blend mix n [obj] s).state.model_file = s.model_file ∧
    (run_dsp_core blend mix n [obj] s).state.model_file1 = s.model_file1 ∧
    (run_dsp_core blend mix n [obj] s).state.rtmodel_file = s.rtmodel_file ∧
    (run_dsp_core blend mix n [obj] s).state.rtmodel_file1 = s.rtmodel_file1 ∧
    (run_dsp_core blend mix n [obj] s).state.ir_file = s.ir_file ∧
    (run_dsp_core blend mix n [obj] s).state.ir_file1 = s.ir_file1 := by
  have hn : ¬ n < 1 := by omega
  have hpg : patch_Set ≠ patch_Get := by decide
  have e1 : read_set_file s obj = (none, { s with _ab := c }) := by
    simp [read_set_file, h1, h2, h3, h4]
  have e2 : processEvent n s obj = ({ s with _ab := c }, [], false) := by
    simp [processEvent, h1, hpg, e1]
  have e3 : processEvents n [obj] (s, [], false) =
      ({ s with _ab := c }, [], false) := by
    simp [processEvents, e2]
  simp only [run_dsp_core, if_neg hn, e3]
  split_ifs <;> simp_all

/-- A `patch_Set` object whose property selects the RecurrentModel "A"
target but which carries no Path value. -/
def objNoPath : AtomObject :=
  ⟨patch_Set, some (atom_URID, xlv2_rtmodel_file), none⟩

/-- Witness for `C10_set_without_path` on a fresh state and a value-less
`patch_Set` for the RecurrentModel "A" target. -/
theorem C10_set_without_path_witness :
    (run_dsp_core 0 0 64 [objNoPath] (init_state 48000)).state._ab = 4 ∧
    (run_dsp_core 0 0 64 [objNoPath] (init_state 48000)).state._execute = false ∧
    (run_dsp_core 0 0 64 [objNoPath] (init_state 48000)).wake = false ∧
    (run_dsp_core 0 0 64 [objNoPath] (init_state 48000)).msgs = [] ∧
    (run_dsp_core 0 0 64 [objNoPath] (init_state 48000)).state.model_file =
      (init_state 48000).model_file ∧
    (run_dsp_core 0 0 64 [objNoPath] (init_state 48000)).state.model_file1 =
      (init_state 48000).model_file1 ∧
    (run_dsp_core 0 0 64 [objNoPath] (init_state 48000)).state.rtmodel_file =
      (init_state 48000).rtmodel_file ∧
    (run_dsp_core 0 0 64 [objNoPath] (init_state 48000)).state.rtmodel_file1 =
      (init_state 48000).rtmodel_file1 ∧
    (run_dsp_core 0 0 64 [objNoPath] (init_state 48000)).state.ir_file =
      (init_state 48000).ir_file ∧
    (run_dsp_core 0 0 64 [objNoPath] (init_state 48000)).state.ir_file1 =
      (init_state 48000).ir_file1 :=
  C10_set_without_path (init_state 48000) objNoPath xlv2_rtmodel_file 4 0 0 64
    (by decide) (by decide) (by decide) (by decide) (by decide) (by decide)
    (by decide) (by decide)

/-- Oracle under which every external load / start succeeds. -/
def env0 : Env :=
  ⟨fun _ => true, fun _ => true, fun _ => true, fun _ => true,
   fun _ _ _ => true, fun _ _ _ => true⟩

/-- Oracle under which every external load / start fails. -/
def envFail : Env :=
  ⟨fun _ => false, fun _ => false, fun _ => false, fun _ => false,
   fun _ _ _ => false, fun _ _ _ => false⟩

/-- A fresh state with operation code `k`. -/
def sAtCode (k : Int) : PluginState := { init_state 48000 with _ab := k }

/-- Claim C3: every slot-load in `do_work_mono` recovers failure locally:
on failure the slot's stored path is reset to the sentinel and its
activation flag is left false (and the subsequent notification block reports
the sentinel for that slot); on success the activation flag is set and the
path is kept.  Stated for all six model-load codes. -/
theorem C3_load_error_recovery (env : Env) (s : PluginState) :
    (s._ab = 1 →
      (env.namLoadOkA s.model_file = false →
        (do_work_mono env s).model_file = "None" ∧
        (do_work_mono env s)._namA = false ∧
        (xlv2_model_file, "None") ∈ notifyMsgs (do_work_mono env s)) ∧
      (env.namLoadOkA s.model_file = true →
        (do_work_mono env s).model_file = s.model_file ∧
        (do_work_mono env s)._namA = true)) ∧
    (s._ab = 2 →
      (env.namLoadOkB s.model_file1 = false →
        (do_work_mono env s).model_file1 = "None" ∧
        (do_work_mono env s)._namB = false ∧
        (xlv2_model_file1, "None") ∈ notifyMsgs (do_work_mono env s)) ∧
      (env.namLoadOkB s.model_file1 = true →
        (do_work_mono env s).model_file1 = s.model_file1 ∧
        (do_work_mono env s)._namB = true)) ∧
    (s._ab = 4 →
      (env.rtnLoadOkA s.rtmodel_file = false →
        (do_work_mono env s).rtmodel_file = "None" ∧
        (do_work_mono env s)._rtnA = false ∧
        (xlv2_rtmodel_file, "None") ∈ notifyMsgs (do_work_mono env s)) ∧
      (env.rtnLoadOkA s.rtmodel_file = true →
        (do_work_mono env s).rtmodel_file = s.rtmodel_file ∧
        (do_work_mono env s)._rtnA = true)) ∧
    (s._ab = 5 →
      (env.rtnLoadOkB s.rtmodel_file1 = false →
        (do_work_mono env s).rtmodel_file1 = "None" ∧
        (do_work_mono env s)._rtnB = false ∧
        (xlv2_rtmodel_file1, "None") ∈ notifyMsgs (do_work_mono env s)) ∧
      (env.rtnLoadOkB s.rtmodel_file1 = true →
        (do_work_mono env s).rtmodel_file1 = s.rtmodel_file1 ∧
        (do_work_mono env s)._rtnB = true)) ∧
    (s._ab = 3 →
      (env.namLoadOkA s.model_file = false →
        (do_work_mono env s).model_file = "None" ∧
        (do_work_mono env s)._namA = false) ∧
      (env.namLoadOkA s.model_file = true →
        (do_work_mono env s).model_file = s.model_file ∧
        (do_work_mono env s)._namA = true) ∧
      (env.namLoadOkB s.model_file1 = false →
        (do_work_mono env s).model_file1 = "None" ∧
        (do_work_mono env s)._namB = false) ∧
      (env.namLoadOkB s.model_file1 = true →
        (do_work_mono env s).model_file1 = s.model_file1 ∧
        (do_work_mono env s)._namB = true)) ∧
    (s._ab = 6 →
      (env.rtnLoadOkA s.rtmodel_file = false →
        (do_work_mono env s).rtmodel_file = "None" ∧
        (do_work_mono env s)._rtnA = false) ∧
      (env.rtnLoadOkA s.rtmodel_file = true →
        (do_work_mono env s).rtmodel_file = s.rtmodel_file ∧
        (do_work_mono env s)._rtnA = true) ∧
      (env.rtnLoadOkB s.rtmodel_file1 = false →
        (do_work_mono env s).rtmodel_file1 = "None" ∧
        (do_work_mono env s)._rtnB = false) ∧
      (env.rtnLoadOkB s.rtmodel_file1 = true →
        (do_work_mono env s).rtmodel_file1 = s.rtmodel_file1 ∧
        (do_work_mono env s)._rtnB = true)) := by
  refine ⟨?_, ?_, ?_, ?_, ?_, ?_⟩
  · intro hab
    refine ⟨fun h => ?_, fun h => ?_⟩ <;>
      simp [do_work_mono, do_work_monoT, doLoadNamA, hab, h, notifyMsgs,
        unloadedMsg, loadedMsg]
  · intro hab
    refine ⟨fun h => ?_, fun h => ?_⟩ <;>
      simp [do_work_mono, do_work_monoT, doLoadNamB, hab, h, notifyMsgs,
        unloadedMsg, loadedMsg]
  · intro hab
    refine ⟨fun h => ?_, fun h => ?_⟩ <;>
      simp [do_work_mono, do_work_monoT, doLoadRtnA, hab, h, notifyMsgs,
        unloadedMsg, loadedMsg]
  · intro hab
    refine ⟨fun h => ?_, fun h => ?_⟩ <;>
      simp [do_work_mono, do_work_monoT, doLoadRtnB, hab, h, notifyMsgs,
        unloadedMsg, loadedMsg]
  · intro hab
    refine ⟨fun h => ?_, fun h => ?_, fun h => ?_, fun h => ?_⟩ <;>
      simp [do_work_mono, do_work_monoT, doCode3, hab, h] <;>
      split_ifs <;> simp_all
  · intro hab
    refine ⟨fun h => ?_, fun h => ?_, fun h => ?_, fun h => ?_⟩ <;>
      simp [do_work_mono, do_work_monoT, doCode6, hab, h] <;>
      split_ifs <;> simp_all

/-- A state requesting a NAM "A" load of a bad model file. -/
def sBadLoad : PluginState :=
  { init_state 48000 with _ab := 1, model_file := "/bad.model" }

/-- Witness for `C3_load_error_recovery`: a failing ProfileModel.A load ends
inactive with the sentinel path and the notification reports the
sentinel. -/
theorem C3_load_error_recovery_witness :
    (do_work_mono envFail sBadLoad).model_file = "None" ∧
    (do_work_mono envFail sBadLoad)._namA = false ∧
    (xlv2_model_file, "None") ∈ notifyMsgs (do_work_mono envFail sBadLoad) :=
  ((C3_load_error_recovery envFail sBadLoad).1 rfl).1 rfl

/-! ### Characterisations of the per-slot load blocks -/

theorem doLoadNamA_eq (env : Env) (s : PluginState) :
    (doLoadNamA env s).1 = { s with
      model_file := if env.namLoadOkA s.model_file then s.model_file else "None"
      _namA := env.namLoadOkA s.model_file
      rtmodel_file := "None"
      _rtnA := false } := by
  unfold doLoadNamA
  by_cases h : env.namLoadOkA s.model_file = false <;> simp [h]

theorem doLoadNamB_eq (env : Env) (s : PluginState) :
    (doLoadNamB env s).1 = { s with
      model_file1 := if env.namLoadOkB s.model_file1 then s.model_file1 else "None"
      _namB := env.namLoadOkB s.model_file1
      rtmodel_file1 := "None"
      _rtnB := false } := by
  unfold doLoadNamB
  by_cases h : env.namLoadOkB s.model_file1 = false <;> simp [h]

theorem doLoadRtnA_eq (env : Env) (s : PluginState) :
    (doLoadRtnA env s).1 = { s with
      rtmodel_file := if env.rtnLoadOkA s.rtmodel_file then s.rtmodel_file else "None"
      _rtnA := env.rtnLoadOkA s.rtmodel_file
      model_file := "None"
      _namA := false } := by
  unfold doLoadRtnA
  by_cases h : env.rtnLoadOkA s.rtmodel_file = false <;> simp [h]

theorem doLoadRtnB_eq (env : Env) (s : PluginState) :
    (doLoadRtnB env s).1 = { s with
      rtmodel_file1 := if env.rtnLoadOkB s.rtmodel_file1 then s.rtmodel_file1 else "None"
      _rtnB := env.rtnLoadOkB s.rtmodel_file1
      model_file1 := "None"
      _namB := false } := by
  unfold doLoadRtnB
  by_cases h : env.rtnLoadOkB s.rtmodel_file1 = false <;> simp [h]

/-! ### The per-letter mutual-exclusion invariant -/

/-- §3 invariant: for each letter at most one of the two families is
active. -/
def Excl (s : PluginState) : Prop :=
  (s._namA = true → s._rtnA = false) ∧ (s._namB = true → s._rtnB = false)

/-- The four activation flags, bundled. -/
def flagsOf (s : PluginState) : Bool × Bool × Bool × Bool :=
  (s._namA, s._namB, s._rtnA, s._rtnB)

theorem excl_of_flags_eq {s t : PluginState}
    (h : flagsOf t = flagsOf s) (he : Excl s) : Excl t := by
  unfold flagsOf at h
  unfold Excl at he ⊢
  simp only [Prod.mk.injEq] at h
  obtain ⟨h1, h2, h3, h4⟩ := h
  rw [h1, h2, h3, h4]
  exact he

theorem flagsOf_storePath (s : PluginState) (p : String) :
    flagsOf (storePath s p) = flagsOf s := by
  unfold storePath flagsOf
  split_ifs <;> rfl

theorem flagsOf_read_set_file (s : PluginState) (obj : AtomObject) :
    flagsOf (read_set_file s obj).2 = flagsOf s := by
  obtain ⟨o, prop, v⟩ := obj
  unfold read_set_file
  cases prop with
  | none => split_ifs <;> rfl
  | some tb =>
    obtain ⟨t, b⟩ := tb
    dsimp only
    split_ifs <;> try rfl
    cases targetCode b <;> rfl

theorem flagsOf_processEvent (n : Nat) (s : PluginState) (e : AtomObject) :
    flagsOf (processEvent n s e).1 = flagsOf s := by
  unfold processEvent
  have hr := flagsOf_read_set_file s e
  rcases hre : read_set_file s e with ⟨fp, s1⟩
  rw [hre] at hr
  cases fp with
  | none => split_ifs <;> simp_all
  | some p =>
    have hsp := flagsOf_storePath s1 p
    dsimp only
    split_ifs <;> simp_all [flagsOf]

theorem flagsOf_processEvents (n : Nat) :
    ∀ (evs : List AtomObject) (acc : PluginState × List (Nat × String) × Bool),
      flagsOf (processEvents n evs acc).1 = flagsOf acc.1 := by
  intro evs
  induction evs with
  | nil => intro acc; rfl
  | cons e rest ih =>
    intro acc
    rw [processEvents]
    rw [ih]
    exact flagsOf_processEvent n acc.1 e

theorem flagsOf_run (blend mix : ℚ) (n : Nat) (evs : List AtomObject)
    (s : PluginState) :
    flagsOf (run_dsp_core blend mix n evs s).state = flagsOf s := by
  by_cases hn : n < 1
  · simp [run_dsp_core, hn]
  · have h := flagsOf_processEvents n evs (s, [], false)
    simp only [run_dsp_core, if_neg hn]
    split_ifs <;> simp_all [flagsOf]

theorem flagsOf_restore (r : RetrievedState) (s : PluginState) :
    flagsOf (restore_state r s) = flagsOf s := by
  obtain ⟨mf, mf1, rf, rf1, ir0, ir1⟩ := r
  cases mf <;> cases mf1 <;> cases rf <;> cases rf1 <;> cases ir0 <;>
    cases ir1 <;> rfl


/-! ### Characterisations of the batch steps -/

theorem PluginState.ext (s t : PluginState)
    (h1 : s.model_file = t.model_file) (h2 : s.model_file1 = t.model_file1)
    (h3 : s.rtmodel_file = t.rtmodel_file)
    (h4 : s.rtmodel_file1 = t.rtmodel_file1)
    (h5 : s.ir_file = t.ir_file) (h6 : s.ir_file1 = t.ir_file1)
    (h7 : s._execute = t._execute) (h8 : s._notify_ui = t._notify_ui)
    (h9 : s._restore = t._restore) (h10 : s._ab = t._ab)
    (h11 : s._namA = t._namA) (h12 : s._namB = t._namB)
    (h13 : s._rtnA = t._rtnA) (h14 : s._rtnB = t._rtnB)
    (h15 : s.convRunnable = t.convRunnable)
    (h16 : s.conv1Runnable = t.conv1Runnable)
    (h17 : s.fRec2 = t.fRec2) (h18 : s.fRec1 = t.fRec1)
    (h19 : s.bufsize = t.bufsize) (h20 : s.s_rate = t.s_rate) : s = t := by
  cases s
  cases t
  simp_all

theorem batchNamA_fst (env : Env) (s : PluginState) :
    (batchNamA env s).1 = { s with
      model_file := if s.model_file ≠ "None" then
          (if env.namLoadOkA s.model_file then s.model_file else "None")
        else s.model_file
      _namA := if s.model_file ≠ "None" then env.namLoadOkA s.model_file
        else s._namA
      rtmodel_file := if s.model_file ≠ "None" then "None" else s.rtmodel_file
      _rtnA := if s.model_file ≠ "None" then false else s._rtnA } := by
  unfold batchNamA
  by_cases g : s.model_file ≠ "None" <;> simp [g, doLoadNamA_eq]

theorem batchNamB_fst (env : Env) (s : PluginState) :
    (batchNamB env s).1 = { s with
      model_file1 := if s.model_file1 ≠ "None" then
          (if env.namLoadOkB s.model_file1 then s.model_file1 else "None")
        else s.model_file1
      _namB := if s.model_file1 ≠ "None" then env.namLoadOkB s.model_file1
        else s._namB
      rtmodel_file1 := if s.model_file1 ≠ "None" then "None" else s.rtmodel_file1
      _rtnB := if s.model_file1 ≠ "None" then false else s._rtnB } := by
  unfold batchNamB
  by_cases g : s.model_file1 ≠ "None" <;> simp [g, doLoadNamB_eq]

theorem batchRtnA_fst (env : Env) (s : PluginState) :
    (batchRtnA env s).1 = { s with
      rtmodel_file := if s.rtmodel_file ≠ "None" then
          (if env.rtnLoadOkA s.rtmodel_file then s.rtmodel_file else "None")
        else s.rtmodel_file
      _rtnA := if s.rtmodel_file ≠ "None" then env.rtnLoadOkA s.rtmodel_file
        else s._rtnA
      model_file := if s.rtmodel_file ≠ "None" then "None" else s.model_file
      _namA := if s.rtmodel_file ≠ "None" then false else s._namA } := by
  unfold batchRtnA
  by_cases g : s.rtmodel_file ≠ "None" <;> simp [g, doLoadRtnA_eq]

theorem batchRtnB_fst (env : Env) (s : PluginState) :
    (batchRtnB env s).1 = { s with
      rtmodel_file1 := if s.rtmodel_file1 ≠ "None" then
          (if env.rtnLoadOkB s.rtmodel_file1 then s.rtmodel_file1 else "None")
        else s.rtmodel_file1
      _rtnB := if s.rtmodel_file1 ≠ "None" then env.rtnLoadOkB s.rtmodel_file1
        else s._rtnB
      model_file1 := if s.rtmodel_file1 ≠ "None" then "None" else s.model_file1
      _namB := if s.rtmodel_file1 ≠ "None" then false else s._namB } := by
  unfold batchRtnB
  by_cases g : s.rtmodel_file1 ≠ "None" <;> simp [g, doLoadRtnB_eq]

theorem batchConv0_fst (env : Env) (s : PluginState) :
    (batchConv0 env s).1 = { s with
      ir_file := if s.ir_file ≠ "None" then
          (if env.convStartOk s.ir_file s.s_rate s.bufsize = false then "None"
           else s.ir_file)
        else s.ir_file
      convRunnable := if s.ir_file ≠ "None" then
          (if env.convStartOk s.ir_file s.s_rate s.bufsize = false then false
           else true)
        else false } := by
  unfold batchConv0 convReconfig
  by_cases g : s.ir_file ≠ "None"
  · by_cases h : env.convStartOk s.ir_file s.s_rate s.bufsize = false <;>
      simp [g, h]
  · by_cases hr : s.convRunnable <;> simp [g, hr] <;>
      (apply PluginState.ext <;> simp_all)

theorem batchConv1_fst (env : Env) (s : PluginState) :
    (batchConv1 env s).1 = { s with
      ir_file1 := if s.ir_file1 ≠ "None" then
          (if env.conv1StartOk s.ir_file1 s.s_rate s.bufsize = false then "None"
           else s.ir_file1)
        else s.ir_file1
      conv1Runnable := if s.ir_file1 ≠ "None" then
          (if env.conv1StartOk s.ir_file1 s.s_rate s.bufsize = false then false
           else true)
        else false } := by
  unfold batchConv1 convReconfig
  by_cases g : s.ir_file1 ≠ "None"
  · by_cases h : env.conv1StartOk s.ir_file1 s.s_rate s.bufsize = false <;>
      simp [g, h]
  · by_cases hr : s.conv1Runnable <;> simp [g, hr] <;>
      (apply PluginState.ext <;> simp_all)

theorem batchNamA_snd (env : Env) (s : PluginState) :
    (batchNamA env s).2 = if s.model_file ≠ "None" then
      [WOp.loadNamA s.model_file, WOp.unloadRtnA] else [] := by
  unfold batchNamA
  by_cases g : s.model_file ≠ "None" <;> simp [g, doLoadNamA]

theorem batchNamB_snd (env : Env) (s : PluginState) :
    (batchNamB env s).2 = if s.model_file1 ≠ "None" then
      [WOp.loadNamB s.model_file1, WOp.unloadRtnB] else [] := by
  unfold batchNamB
  by_cases g : s.model_file1 ≠ "None" <;> simp [g, doLoadNamB]

theorem batchRtnA_snd (env : Env) (s : PluginState) :
    (batchRtnA env s).2 = if s.rtmodel_file ≠ "None" then
      [WOp.loadRtnA s.rtmodel_file, WOp.unloadNamA] else [] := by
  unfold batchRtnA
  by_cases g : s.rtmodel_file ≠ "None" <;> simp [g, doLoadRtnA]

theorem batchRtnB_snd (env : Env) (s : PluginState) :
    (batchRtnB env s).2 = if s.rtmodel_file1 ≠ "None" then
      [WOp.loadRtnB s.rtmodel_file1, WOp.unloadNamB] else [] := by
  unfold batchRtnB
  by_cases g : s.rtmodel_file1 ≠ "None" <;> simp [g, doLoadRtnB]

theorem batchConv0_snd (env : Env) (s : PluginState) :
    (batchConv0 env s).2 = if s.ir_file ≠ "None" then
        convOps 0 s.convRunnable s.ir_file
      else if s.convRunnable then
        [WOp.convSetNotRunnable 0, WOp.convStop 0]
      else [] := by
  unfold batchConv0 convReconfig
  by_cases g : s.ir_file ≠ "None"
  · by_cases h : env.convStartOk s.ir_file s.s_rate s.bufsize = false <;>
      simp [g, h]
  · by_cases hr : s.convRunnable <;> simp [g, hr]

theorem batchConv1_snd (env : Env) (s : PluginState) :
    (batchConv1 env s).2 = if s.ir_file1 ≠ "None" then
        convOps 1 s.conv1Runnable s.ir_file1
      else if s.conv1Runnable then
        [WOp.convSetNotRunnable 1, WOp.convStop 1]
      else [] := by
  unfold batchConv1 convReconfig
  by_cases g : s.ir_file1 ≠ "None"
  · by_cases h : env.conv1StartOk s.ir_file1 s.s_rate s.bufsize = false <;>
      simp [g, h]
  · by_cases hr : s.conv1Runnable <;> simp [g, hr]

/-- Full characterisation of the batch branch state: per letter, the NAM
family is reloaded when its stored path is non-sentinel (which also resets
the RtNeural path of that letter), otherwise the RtNeural family is
reloaded when its path is non-sentinel (resetting the NAM slot of that
letter); a letter with both paths sentinel is untouched.  Each convolution
channel keeps its path only if reconfiguration succeeds and ends runnable
exactly when its path was non-sentinel and `start` succeeded. -/
theorem doBatch_eq (env : Env) (s : PluginState) :
    (doBatch env s).1 = { s with
      model_file :=
        if s.model_file ≠ "None" then
          (if env.namLoadOkA s.model_file then s.model_file else "None")
        else if s.rtmodel_file ≠ "None" then "None"
        else s.model_file
      _namA :=
        if s.model_file ≠ "None" then env.namLoadOkA s.model_file
        else if s.rtmodel_file ≠ "None" then false
        else s._namA
      rtmodel_file :=
        if s.model_file ≠ "None" then "None"
        else if s.rtmodel_file ≠ "None" then
          (if env.rtnLoadOkA s.rtmodel_file then s.rtmodel_file else "None")
        else s.rtmodel_file
      _rtnA :=
        if s.model_file ≠ "None" then false
        else if s.rtmodel_file ≠ "None" then env.rtnLoadOkA s.rtmodel_file
        else s._rtnA
      model_file1 :=
        if s.model_file1 ≠ "None" then
          (if env.namLoadOkB s.model_file1 then s.model_file1 else "None")
        else if s.rtmodel_file1 ≠ "None" then "None"
        else s.model_file1
      _namB :=
        if s.model_file1 ≠ "None" then env.namLoadOkB s.model_file1
        else if s.rtmodel_file1 ≠ "None" then false
        else s._namB
      rtmodel_file1 :=
        if s.model_file1 ≠ "None" then "None"
        else if s.rtmodel_file1 ≠ "None" then
          (if env.rtnLoadOkB s.rtmodel_file1 then s.rtmodel_file1 else "None")
        else s.rtmodel_file1
      _rtnB :=
        if s.model_file1 ≠ "None" then false
        else if s.rtmodel_file1 ≠ "None" then env.rtnLoadOkB s.rtmodel_file1
        else s._rtnB
      ir_file :=
        if s.ir_file ≠ "None" then
          (if env.convStartOk s.ir_file s.s_rate s.bufsize = false then "None"
           else s.ir_file)
        else s.ir_file
      convRunnable :=
        if s.ir_file ≠ "None" then
          (if env.convStartOk s.ir_file s.s_rate s.bufsize = false then false
           else true)
        else false
      ir_file1 :=
        if s.ir_file1 ≠ "None" then
          (if env.conv1StartOk s.ir_file1 s.s_rate s.bufsize = false then "None"
           else s.ir_file1)
        else s.ir_file1
      conv1Runnable :=
        if s.ir_file1 ≠ "None" then
          (if env.conv1StartOk s.ir_file1 s.s_rate s.bufsize = false then false
           else true)
        else false } := by
  have hc : (doBatch env s).1 =
      (batchConv1 env (batchConv0 env (batchRtnB env (batchRtnA env
        (batchNamB env (batchNamA env s).1).1).1).1).1).1 := rfl
  rw [hc, batchNamA_fst, batchNamB_fst, batchRtnA_fst, batchRtnB_fst,
    batchConv0_fst, batchConv1_fst]
  apply PluginState.ext <;> dsimp only <;> split_ifs <;> simp_all

theorem excl_do_work (env : Env) (s : PluginState) (h : Excl s) :
    Excl (do_work_mono env s) := by
  obtain ⟨hA, hB⟩ := h
  unfold do_work_mono do_work_monoT
  dsimp only
  split_ifs with c1 c2 c3 c4 c5 c6 c7 c8 c9
  · rw [doLoadNamA_eq]; exact ⟨fun _ => rfl, hB⟩
  · rw [doLoadNamB_eq]; exact ⟨hA, fun _ => rfl⟩
  · exact ⟨fun _ => rfl, fun _ => rfl⟩
  · rw [doLoadRtnA_eq]
    refine ⟨fun hx => ?_, hB⟩
    simp at hx
  · rw [doLoadRtnB_eq]
    refine ⟨hA, fun hx => ?_⟩
    simp at hx
  · refine ⟨fun hx => ?_, fun hx => ?_⟩ <;> simp [doCode6] at hx
  · rw [doBatch_eq]
    constructor <;> dsimp only <;> split_ifs <;> simp_all
  · exact ⟨hA, hB⟩
  · exact ⟨hA, hB⟩
  · exact ⟨hA, hB⟩

/-- Claim C2: loading a family's slot clears the other family's
same-lettered activation flag and resets its path to the sentinel (codes
1-6 and the executed branches of the batch code), and consequently in every
reachable state at most one family is active per letter. -/
theorem C2_mutual_exclusion :
    (∀ (env : Env) (s : PluginState),
      (s._ab = 1 → (do_work_mono env s)._rtnA = false ∧
        (do_work_mono env s).rtmodel_file = "None") ∧
      (s._ab = 2 → (do_work_mono env s)._rtnB = false ∧
        (do_work_mono env s).rtmodel_file1 = "None") ∧
      (s._ab = 3 → (do_work_mono env s)._rtnA = false ∧
        (do_work_mono env s)._rtnB = false ∧
        (do_work_mono env s).rtmodel_file = "None" ∧
        (do_work_mono env s).rtmodel_file1 = "None") ∧
      (s._ab = 4 → (do_work_mono env s)._namA = false ∧
        (do_work_mono env s).model_file = "None") ∧
      (s._ab = 5 → (do_work_mono env s)._namB = false ∧
        (do_work_mono env s).model_file1 = "None") ∧
      (s._ab = 6 → (do_work_mono env s)._namA = false ∧
        (do_work_mono env s)._namB = false ∧
        (do_work_mono env s).model_file = "None" ∧
        (do_work_mono env s).model_file1 = "None") ∧
      (s._ab > 10 →
        (s.model_file ≠ "None" → (do_work_mono env s)._rtnA = false ∧
          (do_work_mono env s).rtmodel_file = "None") ∧
        (s.model_file1 ≠ "None" → (do_work_mono env s)._rtnB = false ∧
          (do_work_mono env s).rtmodel_file1 = "None") ∧
        (s.model_file = "None" → s.rtmodel_file ≠ "None" →
          (do_work_mono env s)._namA = false ∧
          (do_work_mono env s).model_file = "None") ∧
        (s.model_file1 = "None" → s.rtmodel_file1 ≠ "None" →
          (do_work_mono env s)._namB = false ∧
          (do_work_mono env s).model_file1 = "None"))) ∧
    (∀ (env : Env) (rate : Nat) (s : PluginState), Reachable env rate s →
      (s._namA = true → s._rtnA = false) ∧
      (s._namB = true → s._rtnB = false)) := by
  constructor
  · intro env s
    refine ⟨?_, ?_, ?_, ?_, ?_, ?_, ?_⟩
    · intro hab
      simp [do_work_mono, do_work_monoT, hab, doLoadNamA_eq]
    · intro hab
      simp [do_work_mono, do_work_monoT, hab, doLoadNamB_eq]
    · intro hab
      simp [do_work_mono, do_work_monoT, hab, doCode3]
    · intro hab
      simp [do_work_mono, do_work_monoT, hab, doLoadRtnA_eq]
    · intro hab
      simp [do_work_mono, do_work_monoT, hab, doLoadRtnB_eq]
    · intro hab
      simp [do_work_mono, do_work_monoT, hab, doCode6]
    · intro hab
      have h1 : ¬ s._ab = 1 := by omega
      have h2 : ¬ s._ab = 2 := by omega
      have h3 : ¬ s._ab = 3 := by omega
      have h4 : ¬ s._ab = 4 := by omega
      have h5 : ¬ s._ab = 5 := by omega
      have h6 : ¬ s._ab = 6 := by omega
      simp only [do_work_mono, do_work_monoT, h1, h2, h3, h4, h5, h6, hab,
        if_true, if_false, ite_true, ite_false, if_neg, if_pos,
        not_false_eq_true, reduceIte]
      rw [doBatch_eq]
      refine ⟨fun g1 => ?_, fun g2 => ?_, fun ng1 g3 => ?_, fun ng2 g4 => ?_⟩ <;>
        dsimp only <;> split_ifs <;> simp_all
  · intro env rate s h
    induction h with
    | refl =>
      refine ⟨fun hx => ?_, fun hx => ?_⟩ <;> simp [init_state] at hx
    | tail hst step ih =>
      cases step with
      | work => exact excl_do_work _ _ ih
      | dsp => exact excl_of_flags_eq (flagsOf_run _ _ _ _ _) ih
      | restore => exact excl_of_flags_eq (flagsOf_restore _ _) ih
      | cleanup => exact ih

/-- Witness for `C2_mutual_exclusion`: a code-1 load clears the RtNeural
"A" slot, and the freshly initialised state satisfies the invariant. -/
theorem C2_mutual_exclusion_witness :
    ((do_work_mono env0 (sAtCode 1))._rtnA = false ∧
     (do_work_mono env0 (sAtCode 1)).rtmodel_file = "None") ∧
    (((init_state 48000)._namA = true → (init_state 48000)._rtnA = false) ∧
     ((init_state 48000)._namB = true → (init_state 48000)._rtnB = false)) :=
  ⟨(C2_mutual_exclusion.1 env0 (sAtCode 1)).1 rfl,
   C2_mutual_exclusion.2 env0 48000 (init_state 48000)
     Relation.ReflTransGen.refl⟩

/-- A reachable-shaped state: batch pending, impulse channel 0 still
runnable but its stored path already reset to the sentinel (e.g. after a
host restore overwrote `ir_file`). -/
def sC6 : PluginState := { init_state 48000 with _ab := 12, convRunnable := true }

/-- Claim C6, counterexample to the claim as stated: the batch branch does
touch a channel whose stored path is the sentinel - a still-runnable
convolution engine is stopped (lines 573-578), so its observable state
changes even though `ir_file` is "None". -/
theorem C6_counterexample :
    sC6.ir_file = "None" ∧ sC6.convRunnable = true ∧
    (do_work_mono env0 sC6).convRunnable = false := by
  refine ⟨rfl, rfl, ?_⟩
  decide

/-- Claim C6 (amended): the batch operation loads a slot only if its stored
path is non-sentinel, and a letter whose two family paths are both sentinel
is left completely untouched; a channel with a sentinel path keeps its path
but is stopped (left non-runnable) rather than untouched.  In particular,
restoring a state in which only RecurrentModel.B is set (all other paths
sentinel, flags clear, channels stopped) loads only RecurrentModel.B and
leaves every other slot unchanged. -/
theorem C6_batch_untouched (env : Env) (s : PluginState) (h : s._ab > 10) :
    (s.model_file = "None" ∧ s.rtmodel_file = "None" →
      (do_work_mono env s).model_file = s.model_file ∧
      (do_work_mono env s)._namA = s._namA ∧
      (do_work_mono env s).rtmodel_file = s.rtmodel_file ∧
      (do_work_mono env s)._rtnA = s._rtnA) ∧
    (s.model_file1 = "None" ∧ s.rtmodel_file1 = "None" →
      (do_work_mono env s).model_file1 = s.model_file1 ∧
      (do_work_mono env s)._namB = s._namB ∧
      (do_work_mono env s).rtmodel_file1 = s.rtmodel_file1 ∧
      (do_work_mono env s)._rtnB = s._rtnB) ∧
    (s.ir_file = "None" →
      (do_work_mono env s).ir_file = s.ir_file ∧
      (do_work_mono env s).convRunnable = false) ∧
    (s.ir_file1 = "None" →
      (do_work_mono env s).ir_file1 = s.ir_file1 ∧
      (do_work_mono env s).conv1Runnable = false) ∧
    (s.model_file = "None" → s.model_file1 = "None" → s.rtmodel_file = "None" →
      s.rtmodel_file1 ≠ "None" → s.ir_file = "None" → s.ir_file1 = "None" →
      s._namA = false → s._namB = false → s._rtnA = false →
      s.convRunnable = false → s.conv1Runnable = false →
      (do_work_mono env s).model_file = "None" ∧
      (do_work_mono env s)._namA = false ∧
      (do_work_mono env s).rtmodel_file = "None" ∧
      (do_work_mono env s)._rtnA = false ∧
      (do_work_mono env s).model_file1 = "None" ∧
      (do_work_mono env s)._namB = false ∧
      (do_work_mono env s).rtmodel_file1 =
        (if env.rtnLoadOkB s.rtmodel_file1 then s.rtmodel_file1 else "None") ∧
      (do_work_mono env s)._rtnB = env.rtnLoadOkB s.rtmodel_file1 ∧
      (do_work_mono env s).ir_file = "None" ∧
      (do_work_mono env s).convRunnable = false ∧
      (do_work_mono env s).ir_file1 = "None" ∧
      (do_work_mono env s).conv1Runnable = false) := by
  have h1 : ¬ s._ab = 1 := by omega
  have h2 : ¬ s._ab = 2 := by omega
  have h3 : ¬ s._ab = 3 := by omega
  have h4 : ¬ s._ab = 4 := by omega
  have h5 : ¬ s._ab = 5 := by omega
  have h6 : ¬ s._ab = 6 := by omega
  simp only [do_work_mono, do_work_monoT, h1, h2, h3, h4, h5, h6, h,
    if_true, if_false, ite_true, ite_false, not_false_eq_true, reduceIte]
  rw [doBatch_eq]
  refine ⟨fun ⟨g1, g2⟩ => ?_, fun ⟨g1, g2⟩ => ?_, fun g => ?_, fun g => ?_,
    fun g1 g2 g3 g4 g5 g6 f1 f2 f3 r1 r2 => ?_⟩ <;>
    dsimp only <;> split_ifs <;> simp_all

/-- Restored state holding only the RecurrentModel "B" path. -/
def sC6w : PluginState :=
  { init_state 48000 with _ab := 12, rtmodel_file1 := "/b.json" }

/-- Witness for `C6_batch_untouched`: the restore scenario with only
RecurrentModel.B set. -/
theorem C6_batch_untouched_witness :
    (do_work_mono env0 sC6w).model_file = "None" ∧
    (do_work_mono env0 sC6w)._namA = false ∧
    (do_work_mono env0 sC6w).rtmodel_file = "None" ∧
    (do_work_mono env0 sC6w)._rtnA = false ∧
    (do_work_mono env0 sC6w).model_file1 = "None" ∧
    (do_work_mono env0 sC6w)._namB = false ∧
    (do_work_mono env0 sC6w).rtmodel_file1 =
      (if env0.rtnLoadOkB sC6w.rtmodel_file1 then sC6w.rtmodel_file1
       else "None") ∧
    (do_work_mono env0 sC6w)._rtnB = env0.rtnLoadOkB sC6w.rtmodel_file1 ∧
    (do_work_mono env0 sC6w).ir_file = "None" ∧
    (do_work_mono env0 sC6w).convRunnable = false ∧
    (do_work_mono env0 sC6w).ir_file1 = "None" ∧
    (do_work_mono env0 sC6w).conv1Runnable = false :=
  (C6_batch_untouched env0 sC6w (by decide)).2.2.2.2 rfl rfl rfl (by decide)
    rfl rfl rfl rfl rfl rfl rfl

/-- For a batch code, `do_work_mono` runs the batch branch and then clears
BusyFlag and sets NotifyFlag. -/
theorem do_work_mono_batch (env : Env) (s : PluginState) (h : s._ab > 10) :
    do_work_mono env s =
      { (doBatch env s).1 with _execute := false, _notify_ui := true } := by
  have h1 : ¬ s._ab = 1 := by omega
  have h2 : ¬ s._ab = 2 := by omega
  have h3 : ¬ s._ab = 3 := by omega
  have h4 : ¬ s._ab = 4 := by omega
  have h5 : ¬ s._ab = 5 := by omega
  have h6 : ¬ s._ab = 6 := by omega
  simp only [do_work_mono, do_work_monoT, h1, h2, h3, h4, h5, h6, h,
    if_true, if_false, ite_true, ite_false, not_false_eq_true, reduceIte]

/-- Claim C7: the batch operation is idempotent - applying `do_work_mono`
twice with a batch code and no intervening messages yields exactly the same
state (paths, activation flags, runnable statuses and all bookkeeping
fields) as applying it once. -/
theorem C7_batch_idempotent (env : Env) (s : PluginState) (h : s._ab > 10) :
    do_work_mono env (do_work_mono env s) = do_work_mono env s := by
  have hab : (do_work_mono env s)._ab > 10 := by
    rw [do_work_mono_batch env s h, doBatch_eq]
    exact h
  rw [do_work_mono_batch env (do_work_mono env s) hab]
  rw [do_work_mono_batch env s h]
  simp only [doBatch_eq]
  apply PluginState.ext <;> dsimp only <;> split_ifs <;> simp_all

/-- Witness for `C7_batch_idempotent` on a restored state with one
RecurrentModel path. -/
theorem C7_batch_idempotent_witness :
    do_work_mono env0 (do_work_mono env0 sC6w) = do_work_mono env0 sC6w :=
  C7_batch_idempotent env0 sC6w (by decide)

/-- The trace of the batch branch is the concatenation of the six step
traces, in source order. -/
theorem doBatch_snd (env : Env) (s : PluginState) :
    (doBatch env s).2 =
      (batchNamA env s).2 ++ (batchNamB env (batchNamA env s).1).2 ++
      (batchRtnA env (batchNamB env (batchNamA env s).1).1).2 ++
      (batchRtnB env (batchRtnA env (batchNamB env
        (batchNamA env s).1).1).1).2 ++
      (batchConv0 env (batchRtnB env (batchRtnA env (batchNamB env
        (batchNamA env s).1).1).1).1).2 ++
      (batchConv1 env (batchConv0 env (batchRtnB env (batchRtnA env
        (batchNamB env (batchNamA env s).1).1).1).1).1).2 := rfl

/-- For a batch code, the trace of `do_work_mono` is the batch trace. -/
theorem do_work_monoT_batch_snd (env : Env) (s : PluginState)
    (h : s._ab > 10) : (do_work_monoT env s).2 = (doBatch env s).2 := by
  have h1 : ¬ s._ab = 1 := by omega
  have h2 : ¬ s._ab = 2 := by omega
  have h3 : ¬ s._ab = 3 := by omega
  have h4 : ¬ s._ab = 4 := by omega
  have h5 : ¬ s._ab = 5 := by omega
  have h6 : ¬ s._ab = 6 := by omega
  simp only [do_work_monoT, h1, h2, h3, h4, h5, h6, h,
    if_true, if_false, ite_true, ite_false, not_false_eq_true, reduceIte]

/-- The two runnable flags, bundled. -/
def runnableOf (s : PluginState) : Bool × Bool :=
  (s.convRunnable, s.conv1Runnable)

theorem runnableOf_storePath (s : PluginState) (p : String) :
    runnableOf (storePath s p) = runnableOf s := by
  unfold storePath runnableOf
  split_ifs <;> rfl

theorem runnableOf_read_set_file (s : PluginState) (obj : AtomObject) :
    runnableOf (read_set_file s obj).2 = runnableOf s := by
  obtain ⟨o, prop, v⟩ := obj
  unfold read_set_file
  cases prop with
  | none => split_ifs <;> rfl
  | some tb =>
    obtain ⟨t, b⟩ := tb
    dsimp only
    split_ifs <;> try rfl
    cases targetCode b <;> rfl

theorem runnableOf_processEvent (n : Nat) (s : PluginState) (e : AtomObject) :
    runnableOf (processEvent n s e).1 = runnableOf s := by
  unfold processEvent
  have hr := runnableOf_read_set_file s e
  rcases hre : read_set_file s e with ⟨fp, s1⟩
  rw [hre] at hr
  cases fp with
  | none => split_ifs <;> simp_all
  | some p =>
    have hsp := runnableOf_storePath s1 p
    dsimp only
    split_ifs <;> simp_all [runnableOf]

theorem runnableOf_processEvents (n : Nat) :
    ∀ (evs : List AtomObject) (acc : PluginState × List (Nat × String) × Bool),
      runnableOf (processEvents n evs acc).1 = runnableOf acc.1 := by
  intro evs
  induction evs with
  | nil => intro acc; rfl
  | cons e rest ih =>
    intro acc
    rw [processEvents]
    rw [ih]
    exact runnableOf_processEvent n acc.1 e

theorem run_convComputed (blend mix : ℚ) (n : Nat) (evs : List AtomObject)
    (s : PluginState) (h : s.convRunnable = false) :
    (run_dsp_core blend mix n evs s).convComputed = false := by
  by_cases hn : n < 1
  · simp [run_dsp_core, hn]
  · have hp := runnableOf_processEvents n evs (s, [], false)
    simp only [runnableOf, Prod.mk.injEq] at hp
    simp only [run_dsp_core, if_neg hn]
    split_ifs <;> simp_all

theorem run_conv1Computed (blend mix : ℚ) (n : Nat) (evs : List AtomObject)
    (s : PluginState) (h : s.conv1Runnable = false) :
    (run_dsp_core blend mix n evs s).conv1Computed = false := by
  by_cases hn : n < 1
  · simp [run_dsp_core, hn]
  · have hp := runnableOf_processEvents n evs (s, [], false)
    simp only [runnableOf, Prod.mk.injEq] at hp
    simp only [run_dsp_core, if_neg hn]
    split_ifs <;> simp_all

/-- Claim C8: impulse-channel reconfiguration (codes 7, 8 and the batch
conv branches) issues the engine calls in the strict source order -
conditional `set_not_runnable`/`stop_process`, then `cleanup`,
`set_samplerate`, `set_buffersize`, `configure`, the `checkstate` busy-wait
and `start` - and on `start` failure the channel's path reverts to the
sentinel and the channel stays non-runnable; a non-runnable channel is
bypassed by the dispatcher (its `compute` is not called). -/
theorem C8_conv_reconfig (env : Env) (s : PluginState) :
    (s._ab = 7 →
      (do_work_monoT env s).2 = convOps 0 s.convRunnable s.ir_file ∧
      (env.convStartOk s.ir_file s.s_rate s.bufsize = false →
        (do_work_mono env s).ir_file = "None" ∧
        (do_work_mono env s).convRunnable = false)) ∧
    (s._ab = 8 →
      (do_work_monoT env s).2 = convOps 1 s.conv1Runnable s.ir_file1 ∧
      (env.conv1StartOk s.ir_file1 s.s_rate s.bufsize = false →
        (do_work_mono env s).ir_file1 = "None" ∧
        (do_work_mono env s).conv1Runnable = false)) ∧
    (s._ab > 10 → s.ir_file ≠ "None" →
      (do_work_monoT env s).2.filter
          (fun op => decide (op.slot = SlotId.conv0)) =
        convOps 0 s.convRunnable s.ir_file ∧
      (env.convStartOk s.ir_file s.s_rate s.bufsize = false →
        (do_work_mono env s).ir_file = "None" ∧
        (do_work_mono env s).convRunnable = false)) ∧
    (s._ab > 10 → s.ir_file1 ≠ "None" →
      (do_work_monoT env s).2.filter
          (fun op => decide (op.slot = SlotId.conv1)) =
        convOps 1 s.conv1Runnable s.ir_file1 ∧
      (env.conv1StartOk s.ir_file1 s.s_rate s.bufsize = false →
        (do_work_mono env s).ir_file1 = "None" ∧
        (do_work_mono env s).conv1Runnable = false)) ∧
    (∀ (blend mix : ℚ) (n : Nat) (evs : List AtomObject),
      s.convRunnable = false →
      (run_dsp_core blend mix n evs s).convComputed = false) ∧
    (∀ (blend mix : ℚ) (n : Nat) (evs : List AtomObject),
      s.conv1Runnable = false →
      (run_dsp_core blend mix n evs s).conv1Computed = false) := by
  refine ⟨?_, ?_, ?_, ?_, ?_, ?_⟩
  · intro hab
    constructor
    · simp only [do_work_monoT, hab]
      norm_num [doCode7, convReconfig]
      split_ifs <;> rfl
    · intro hf
      simp [do_work_mono, do_work_monoT, hab, doCode7, convReconfig, hf]
  · intro hab
    constructor
    · simp only [do_work_monoT, hab]
      norm_num [doCode8, convReconfig]
      split_ifs <;> rfl
    · intro hf
      simp [do_work_mono, do_work_monoT, hab, doCode8, convReconfig, hf]
  · intro hab hir
    constructor
    · rw [do_work_monoT_batch_snd env s hab, doBatch_snd,
        batchNamA_fst, batchNamB_fst, batchRtnA_fst, batchRtnB_fst,
        batchNamA_snd, batchNamB_snd, batchRtnA_snd, batchRtnB_snd,
        batchConv0_snd, batchConv1_snd, batchConv0_fst]
      dsimp only
      by_cases hr0 : s.convRunnable = true <;>
        by_cases hr1 : s.conv1Runnable = true <;>
        split_ifs <;> simp_all [convOps, WOp.slot]
    · intro hf
      rw [do_work_mono_batch env s hab, doBatch_eq]
      dsimp only
      split_ifs <;> simp_all
  · intro hab hir
    constructor
    · rw [do_work_monoT_batch_snd env s hab, doBatch_snd,
        batchNamA_fst, batchNamB_fst, batchRtnA_fst, batchRtnB_fst,
        batchNamA_snd, batchNamB_snd, batchRtnA_snd, batchRtnB_snd,
        batchConv0_snd, batchConv1_snd, batchConv0_fst]
      dsimp only
      by_cases hr0 : s.convRunnable = true <;>
        by_cases hr1 : s.conv1Runnable = true <;>
        split_ifs <;> simp_all [convOps, WOp.slot]
    · intro hf
      rw [do_work_mono_batch env s hab, doBatch_eq]
      dsimp only
      split_ifs <;> simp_all
  · intro blend mix n evs h
    exact run_convComputed blend mix n evs s h
  · intro blend mix n evs h
    exact run_conv1Computed blend mix n evs s h

/-- A fresh state requesting an impulse reload of channel 0. -/
def sC8 : PluginState :=
  { init_state 48000 with _ab := 7, ir_file := "/ir.wav" }

/-- Witness for `C8_conv_reconfig`: code 7 with a failing engine start. -/
theorem C8_conv_reconfig_witness :
    (do_work_monoT envFail sC8).2 = convOps 0 sC8.convRunnable sC8.ir_file ∧
    (do_work_mono envFail sC8).ir_file = "None" ∧
    (do_work_mono envFail sC8).convRunnable = false :=
  ⟨((C8_conv_reconfig envFail sC8).1 rfl).1,
   ((C8_conv_reconfig envFail sC8).1 rfl).2 rfl⟩

/-- The worker trace for each single-slot code. -/
theorem do_work_monoT_snd1 (env : Env) (s : PluginState) (h : s._ab = 1) :
    (do_work_monoT env s).2 = [WOp.loadNamA s.model_file, WOp.unloadRtnA] := by
  simp [do_work_monoT, h, doLoadNamA]

theorem do_work_monoT_snd2 (env : Env) (s : PluginState) (h : s._ab = 2) :
    (do_work_monoT env s).2 = [WOp.loadNamB s.model_file1, WOp.unloadRtnB] := by
  simp [do_work_monoT, h, doLoadNamB]

theorem do_work_monoT_snd3 (env : Env) (s : PluginState) (h : s._ab = 3) :
    (do_work_monoT env s).2 = [WOp.loadNamA s.model_file,
      WOp.loadNamB s.model_file1, WOp.unloadRtnA, WOp.unloadRtnB] := by
  simp only [do_work_monoT, h]
  norm_num [doCode3]
  split_ifs <;> rfl

theorem do_work_monoT_snd4 (env : Env) (s : PluginState) (h : s._ab = 4) :
    (do_work_monoT env s).2 = [WOp.loadRtnA s.rtmodel_file, WOp.unloadNamA] := by
  simp [do_work_monoT, h, doLoadRtnA]

theorem do_work_monoT_snd5 (env : Env) (s : PluginState) (h : s._ab = 5) :
    (do_work_monoT env s).2 = [WOp.loadRtnB s.rtmodel_file1, WOp.unloadNamB] := by
  simp [do_work_monoT, h, doLoadRtnB]

theorem do_work_monoT_snd6 (env : Env) (s : PluginState) (h : s._ab = 6) :
    (do_work_monoT env s).2 = [WOp.loadRtnA s.rtmodel_file,
      WOp.loadRtnB s.rtmodel_file1, WOp.unloadNamA, WOp.unloadNamB] := by
  simp only [do_work_monoT, h]
  norm_num [doCode6]
  split_ifs <;> rfl

theorem do_work_monoT_snd7 (env : Env) (s : PluginState) (h : s._ab = 7) :
    (do_work_monoT env s).2 = convOps 0 s.convRunnable s.ir_file := by
  simp only [do_work_monoT, h]
  norm_num [doCode7, convReconfig]
  split_ifs <;> rfl

theorem do_work_monoT_snd8 (env : Env) (s : PluginState) (h : s._ab = 8) :
    (do_work_monoT env s).2 = convOps 1 s.conv1Runnable s.ir_file1 := by
  simp only [do_work_monoT, h]
  norm_num [doCode8, convReconfig]
  split_ifs <;> rfl

theorem attempted_append (t1 t2 : List WOp) (sl : SlotId) :
    attempted (t1 ++ t2) sl = (attempted t1 sl || attempted t2 sl) := by
  simp [attempted]

/-- The slots attempted by each batch step, as a function of the step's
input state. -/
theorem attempted_batchNamA (env : Env) (s : PluginState) (sl : SlotId) :
    attempted (batchNamA env s).2 sl =
      (decide (s.model_file ≠ "None") &&
       decide (sl = SlotId.namA ∨ sl = SlotId.rtnA)) := by
  rw [batchNamA_snd]
  by_cases g : s.model_file ≠ "None" <;> cases sl <;>
    simp [g, attempted, WOp.slot]

theorem attempted_batchNamB (env : Env) (s : PluginState) (sl : SlotId) :
    attempted (batchNamB env s).2 sl =
      (decide (s.model_file1 ≠ "None") &&
       decide (sl = SlotId.namB ∨ sl = SlotId.rtnB)) := by
  rw [batchNamB_snd]
  by_cases g : s.model_file1 ≠ "None" <;> cases sl <;>
    simp [g, attempted, WOp.slot]

theorem attempted_batchRtnA (env : Env) (s : PluginState) (sl : SlotId) :
    attempted (batchRtnA env s).2 sl =
      (decide (s.rtmodel_file ≠ "None") &&
       decide (sl = SlotId.namA ∨ sl = SlotId.rtnA)) := by
  rw [batchRtnA_snd]
  by_cases g : s.rtmodel_file ≠ "None" <;> cases sl <;>
    simp [g, attempted, WOp.slot]

theorem attempted_batchRtnB (env : Env) (s : PluginState) (sl : SlotId) :
    attempted (batchRtnB env s).2 sl =
      (decide (s.rtmodel_file1 ≠ "None") &&
       decide (sl = SlotId.namB ∨ sl = SlotId.rtnB)) := by
  rw [batchRtnB_snd]
  by_cases g : s.rtmodel_file1 ≠ "None" <;> cases sl <;>
    simp [g, attempted, WOp.slot]

theorem attempted_batchConv0 (env : Env) (s : PluginState) (sl : SlotId) :
    attempted (batchConv0 env s).2 sl =
      ((decide (s.ir_file ≠ "None") || s.convRunnable) &&
       decide (sl = SlotId.conv0)) := by
  rw [batchConv0_snd]
  by_cases g : s.ir_file ≠ "None" <;>
    by_cases hr : s.convRunnable = true <;> cases sl <;>
    simp [g, hr, attempted, WOp.slot, convOps]

theorem attempted_batchConv1 (env : Env) (s : PluginState) (sl : SlotId) :
    attempted (batchConv1 env s).2 sl =
      ((decide (s.ir_file1 ≠ "None") || s.conv1Runnable) &&
       decide (sl = SlotId.conv1)) := by
  rw [batchConv1_snd]
  by_cases g : s.ir_file1 ≠ "None" <;>
    by_cases hr : s.conv1Runnable = true <;> cases sl <;>
    simp [g, hr, attempted, WOp.slot, convOps]

/-- Claim C1: for every valid operation code (1-8 or > 10), `do_work_mono`
ends with BusyFlag cleared and NotifyFlag set, and the slots/channels on
which a load or unload was attempted are exactly those named by the §3
table entry for that code (`specAttempts`), regardless of load success. -/
theorem C1_apply_effects (env : Env) (s : PluginState)
    (h : (1 ≤ s._ab ∧ s._ab ≤ 8) ∨ s._ab > 10) :
    (do_work_mono env s)._execute = false ∧
    (do_work_mono env s)._notify_ui = true ∧
    ∀ sl, attempted (do_work_monoT env s).2 sl = specAttempts s._ab s sl := by
  refine ⟨rfl, rfl, ?_⟩
  rcases h with ⟨hlo, hhi⟩ | hb
  · have hc : s._ab = 1 ∨ s._ab = 2 ∨ s._ab = 3 ∨ s._ab = 4 ∨ s._ab = 5 ∨
        s._ab = 6 ∨ s._ab = 7 ∨ s._ab = 8 := by omega
    intro sl
    rcases hc with hc | hc | hc | hc | hc | hc | hc | hc
    · rw [do_work_monoT_snd1 env s hc]
      cases sl <;> simp [attempted, specAttempts, hc, WOp.slot]
    · rw [do_work_monoT_snd2 env s hc]
      cases sl <;> simp [attempted, specAttempts, hc, WOp.slot]
    · rw [do_work_monoT_snd3 env s hc]
      cases sl <;> simp [attempted, specAttempts, hc, WOp.slot]
    · rw [do_work_monoT_snd4 env s hc]
      cases sl <;> simp [attempted, specAttempts, hc, WOp.slot]
    · rw [do_work_monoT_snd5 env s hc]
      cases sl <;> simp [attempted, specAttempts, hc, WOp.slot]
    · rw [do_work_monoT_snd6 env s hc]
      cases sl <;> simp [attempted, specAttempts, hc, WOp.slot]
    · rw [do_work_monoT_snd7 env s hc]
      cases sl <;> by_cases hr : s.convRunnable = true <;>
        simp [attempted, specAttempts, hc, WOp.slot, convOps, hr]
    · rw [do_work_monoT_snd8 env s hc]
      cases sl <;> by_cases hr : s.conv1Runnable = true <;>
        simp [attempted, specAttempts, hc, WOp.slot, convOps, hr]
  · have hne1 : ¬ s._ab = 1 := by omega
    have hne2 : ¬ s._ab = 2 := by omega
    have hne3 : ¬ s._ab = 3 := by omega
    have hne4 : ¬ s._ab = 4 := by omega
    have hne5 : ¬ s._ab = 5 := by omega
    have hne6 : ¬ s._ab = 6 := by omega
    have hne7 : ¬ s._ab = 7 := by omega
    have hne8 : ¬ s._ab = 8 := by omega
    intro sl
    rw [do_work_monoT_batch_snd env s hb, doBatch_snd,
      attempted_append, attempted_append, attempted_append, attempted_append,
      attempted_append,
      attempted_batchNamA, attempted_batchNamB, attempted_batchRtnA,
      attempted_batchRtnB, attempted_batchConv0, attempted_batchConv1,
      batchNamA_fst, batchNamB_fst, batchRtnA_fst, batchRtnB_fst,
      batchConv0_fst]
    dsimp only
    simp only [specAttempts, hne1, hne2, hne3, hne4, hne5, hne6, hne7, hne8,
      hb, if_true, if_false, ite_true, ite_false, not_false_eq_true,
      reduceIte]
    cases sl <;>
      by_cases g1 : s.model_file ≠ "None" <;>
      by_cases g2 : s.model_file1 ≠ "None" <;>
      by_cases g3 : s.rtmodel_file ≠ "None" <;>
      by_cases g4 : s.rtmodel_file1 ≠ "None" <;>
      by_cases hr0 : s.convRunnable = true <;>
      by_cases hr1 : s.conv1Runnable = true <;>
      simp_all

/-- Witness for `C1_apply_effects` at code 1 on a fresh state. -/
theorem C1_apply_effects_witness :
    (do_work_mono env0 (sAtCode 1))._execute = false ∧
    (do_work_mono env0 (sAtCode 1))._notify_ui = true ∧
    ∀ sl, attempted (do_work_monoT env0 (sAtCode 1)).2 sl =
      specAttempts (sAtCode 1)._ab (sAtCode 1) sl :=
  C1_apply_effects env0 (sAtCode 1) (Or.inl (by decide))
